import Mathlib

/-!
Verification of the TFLite lowering stage (`tinynn/converter/operators/tflite/transformable.py`).

The Python module rewrites high-level operators (BatchNorm, generic Conv,
generic TransposeConv) into chains of primitive TFLite operators.  This file
gives a shallow embedding of that module: tensors are modelled as named,
shaped, typed values (constant buffers carry their integer payload where the
lowering logic reads it; floating-point payloads are carried at the
shape/dtype level only, since none of the rewrite decisions depend on float
values), operators as records with an op-code tag and input/output tensor
lists, and each `transform` method as a pure function threading the
name-generation counters explicitly.
-/

namespace TinyNN

/-- Element types occurring in this lowering stage.  The Python code tests
`dtype == np.float32`; quantized tensors carry int8/uint8, shape/bias
attribute tensors carry int32. -/
inductive DType
  | float32
  | int32
  | int8
  | uint8
deriving DecidableEq, Repr

/-- Quantization parameters (scale, zero point) attached to a tensor.  Their
numeric content never influences the rewrite, only their presence does. -/
structure QuantParams where
  scaleNum : Int := 1
  scaleDen : Nat := 1
  zeroPoint : Int := 0
deriving DecidableEq, Repr

/-- A tensor: named, shaped, typed value (`base.Tensor`).  `hasBuffer` marks
constant (attribute) tensors; `data` is the flattened integer payload for the
buffers the lowering logic actually reads (permutations, shapes, pads, biases).
Transform (intermediate) tensors have `hasBuffer = false` and empty `data`;
their payload only matters through `shape`/`dtype`/`quantization`. -/
structure Tensor where
  name : String
  shape : List Nat
  dtype : DType := DType.float32
  data : List Int := []
  hasBuffer : Bool := false
  quantization : Option QuantParams := none
deriving DecidableEq, Repr

instance : Inhabited Tensor := ⟨{ name := "", shape := [] }⟩

/-- Primitive operator kinds emitted by the lowering (`tfl_ops.*Operator`). -/
inductive OpCode
  | transpose
  | pad
  | slice
  | reshape
  | mul
  | add
  | dequantize
  | quantize
  | conv2d
  | depthwiseConv2d
  | transposeConv
deriving DecidableEq, Repr

/-- A primitive operator: op-code, ordered input/output tensor lists and the
kind-specific attributes used by the convolution lowerings. -/
structure Op where
  code : OpCode
  inputs : List Tensor
  outputs : List Tensor
  strideH : Nat := 0
  strideW : Nat := 0
  dilationH : Nat := 0
  dilationW : Nat := 0
  depthMultiplier : Nat := 0
  fusedActivationFunction : Nat := 0
deriving DecidableEq, Repr

instance : Inhabited Op := ⟨{ code := OpCode.transpose, inputs := [], outputs := [] }⟩

/-! ### Shape arithmetic (the numpy operations used for payload inference) -/

/-- Shape of `np.transpose t perm`: entry `i` is `shape[perm[i]]`. -/
def permuteShape (perm : List Nat) (s : List Nat) : List Nat :=
  perm.map (fun i => s.getD i 0)

/-- Shape of `np.expand_dims t 2`: a unit axis inserted at position 2. -/
def expandDims2 (s : List Nat) : List Nat :=
  s.take 2 ++ [1] ++ s.drop 2

/-- Shape of `np.pad t pads` with per-axis (before, after) amounts. -/
def padShape (pads : List (Nat × Nat)) (s : List Nat) : List Nat :=
  List.zipWith (fun p d => p.1 + d + p.2) pads s

/-- Shape of a broadcast numpy binary operation (right-aligned, unit axes
stretched). -/
def broadcastShape (a b : List Nat) : List Nat :=
  let n := max a.length b.length
  List.zipWith max (List.replicate (n - a.length) 1 ++ a)
    (List.replicate (n - b.length) 1 ++ b)

/-! ### Boundary-tensor factory (`TransformableOperator.create_attr_tensor` /
`create_transform_tensor`, transformable.py lines 26-42).

The owning operator's per-invocation counters live in `Fac`; `base` is
`self.outputs[0].name` read at call time. -/

/-- Counters of one lowering invocation (`self.attr_count`,
`self.transform_count`). -/
structure Fac where
  attrCount : Nat := 0
  transformCount : Nat := 0
deriving DecidableEq, Repr

/-- Auto-generated attribute-tensor name: `base_te_attr` for counter 0, then
`base_te_attr_k`. -/
def attrAutoName (base : String) (k : Nat) : String :=
  if k = 0 then base ++ "_te_attr" else base ++ "_te_attr_" ++ Nat.repr k

/-- Auto-generated transform-tensor name: `base_te_transform` for counter 0,
then `base_te_transform_k`. -/
def transformAutoName (base : String) (k : Nat) : String :=
  if k = 0 then base ++ "_te_transform" else base ++ "_te_transform_" ++ Nat.repr k

/-- `create_attr_tensor(tensor, name, quantization)`: constant tensor
(`has_buffer=True`); an auto-generated name consumes the attr counter. -/
def createAttrTensor (fac : Fac) (base : String) (name? : Option String)
    (shape : List Nat) (dtype : DType) (data : List Int)
    (quantization : Option QuantParams) : Tensor × Fac :=
  match name? with
  | some n =>
      ({ name := n, shape := shape, dtype := dtype, data := data,
         hasBuffer := true, quantization := quantization }, fac)
  | none =>
      ({ name := attrAutoName base fac.attrCount, shape := shape, dtype := dtype,
         data := data, hasBuffer := true, quantization := quantization },
       { fac with attrCount := fac.attrCount + 1 })

/-- `create_transform_tensor(tensor, name, quantization)`: bufferless
intermediate tensor; an auto-generated name consumes the transform counter. -/
def createTransformTensor (fac : Fac) (base : String) (name? : Option String)
    (shape : List Nat) (dtype : DType)
    (quantization : Option QuantParams) : Tensor × Fac :=
  match name? with
  | some n =>
      ({ name := n, shape := shape, dtype := dtype, data := [],
         hasBuffer := false, quantization := quantization }, fac)
  | none =>
      ({ name := transformAutoName base fac.transformCount, shape := shape,
         dtype := dtype, data := [], hasBuffer := false, quantization := quantization },
       { fac with transformCount := fac.transformCount + 1 })

/-! ### Layout transpose wrapper
(`wrap_ops_with_nhwc_nchw_transposes`, transformable.py lines 44-66). -/

/-- `ops[0].inputs[input_idx] = t` (in-place list element update on the first
operator of the chain). -/
def setHeadInput (ops : List Op) (i : Nat) (t : Tensor) : List Op :=
  match ops with
  | [] => []
  | op :: rest => { op with inputs := op.inputs.set i t } :: rest

/-- `ops[-1].outputs[output_idx] = t` (in-place list element update on the
last operator of the chain). -/
def setLastOutput (ops : List Op) (i : Nat) (t : Tensor) : List Op :=
  match ops with
  | [] => []
  | [op] => [{ op with outputs := op.outputs.set i t }]
  | op :: rest => op :: setLastOutput rest i t

/-- The NCHW→NHWC permutation `[0, 2, 3, 1]` (as index list). -/
def nchw2nhwcPerm : List Nat := [0, 2, 3, 1]

/-- The NHWC→NCHW permutation `[0, 3, 1, 2]` (as index list). -/
def nhwc2nchwPerm : List Nat := [0, 3, 1, 2]

/-- `wrap_ops_with_nhwc_nchw_transposes(ops, input_idx, output_idx)`:
wraps a chain with a leading NCHW→NHWC transpose and a trailing NHWC→NCHW
transpose, redirecting the chain's designated input and output to two fresh
transform tensors, and returns `[pre] ++ ops ++ [post]`. -/
def wrapOps (fac : Fac) (base : String) (ops : List Op)
    (inputIdx outputIdx : Nat) : List Op × Fac :=
  let origInput := (ops.headI).inputs.getD inputIdx default
  let origOutput := (ops.getLastD default).outputs.getD outputIdx default
  let p1 := createAttrTensor fac base none [4] DType.int32 [0, 3, 1, 2] none
  let nhwc2nchwPermTensor := p1.1
  let p2 := createAttrTensor p1.2 base none [4] DType.int32 [0, 2, 3, 1] none
  let nchw2nhwcPermTensor := p2.1
  let p3 := createTransformTensor p2.2 base none
    (permuteShape nchw2nhwcPerm origInput.shape) origInput.dtype origInput.quantization
  let newInput := p3.1
  let p4 := createTransformTensor p3.2 base none
    (permuteShape nchw2nhwcPerm origOutput.shape) origOutput.dtype origOutput.quantization
  let newOutput := p4.1
  let pre : Op := { code := OpCode.transpose,
                    inputs := [origInput, nchw2nhwcPermTensor], outputs := [newInput] }
  let post : Op := { code := OpCode.transpose,
                     inputs := [newOutput, nhwc2nchwPermTensor], outputs := [origOutput] }
  let ops1 := setHeadInput ops inputIdx newInput
  let ops2 := setLastOutput ops1 outputIdx newOutput
  ([pre] ++ ops2 ++ [post], p4.2)

/-! ### BatchNorm lowering (`BatchNormOperator.transform`, lines 84-124). -/

/-- The BatchNorm transformable node: `inputs = [input, weight, bias,
running_mean, running_variance]`, plus `eps` and the fused activation
selector.  `eps` only enters the floating-point fold arithmetic, which is
irrelevant to the graph structure. -/
structure BatchNormSelf where
  input : Tensor
  weight : Tensor
  bias : Tensor
  runningMean : Tensor
  runningVar : Tensor
  outputs : List Tensor
  fusedActivationFunction : Nat := 0
deriving DecidableEq, Repr

/-- The operator sequence `BatchNormOperator.transform` adds to the graph
converter, in order.  The fold constants `new_w`, `new_b` (lines 90-98) are
float arithmetic; here their attribute tensors carry the reshaped
broadcast shape `[1, C, 1, ...]` and float32 dtype. -/
def bnTransformCore (self : BatchNormSelf) : List Op :=
  let fac : Fac := {}
  let inp := self.input
  let base := self.outputs.headI.name
  let newShape : List Nat :=
    1 :: self.weight.shape.headI :: List.replicate (inp.shape.length - 2) 1
  let w := createAttrTensor fac base none newShape DType.float32 [] none
  let weight := w.1
  let b := createAttrTensor w.2 base none newShape DType.float32 [] none
  let bias := b.1
  -- lines 103-106: if the input is quantized, create a fresh transform tensor
  -- from the same payload (quantization=None) and emit a Dequantize into it.
  let q := if inp.quantization.isSome then
      let t := createTransformTensor b.2 base none inp.shape inp.dtype none
      (t.1, t.2, [({ code := OpCode.dequantize, inputs := [inp], outputs := [t.1] } : Op)])
    else (inp, b.2, ([] : List Op))
  let newInp := q.1
  let mo := createTransformTensor q.2.1 base none
    (broadcastShape newInp.shape newShape) DType.float32 none
  let mulOut := mo.1
  -- line 109: `MulOperator([inp, weight], [mul_out])` — the first input is
  -- `inp`, the original input tensor, not `new_inp`.
  let mulOp : Op := { code := OpCode.mul, inputs := [inp, weight], outputs := [mulOut] }
  let ao := if inp.quantization.isSome then
      createTransformTensor mo.2 base none
        (broadcastShape mulOut.shape newShape) DType.float32 none
    else (self.outputs.headI, mo.2)
  let addOut := ao.1
  let addOp : Op := { code := OpCode.add, inputs := [mulOut, bias], outputs := [addOut],
                      fusedActivationFunction := self.fusedActivationFunction }
  let quantOps : List Op := if inp.quantization.isSome then
      [{ code := OpCode.quantize, inputs := [addOut], outputs := [self.outputs.headI] }]
    else []
  q.2.2 ++ [mulOp, addOp] ++ quantOps

/-- `BatchNormOperator.transform` with its precondition (line 85): every
input except the first must carry a constant buffer. -/
def bnTransform (self : BatchNormSelf) : Except String (List Op) :=
  if self.weight.hasBuffer ∧ self.bias.hasBuffer ∧
      self.runningMean.hasBuffer ∧ self.runningVar.hasBuffer then
    Except.ok (bnTransformCore self)
  else
    Except.error "assert: BatchNorm non-input tensors must have buffers"

/-! ### Generic convolution lowering (`GenericConvOperator.transform`,
transformable.py lines 154-289). -/

/-- The GenericConv transformable node.  `self.inputs` is `[input, weight]`
or `[input, weight, bias]`; a `None` bias slot behaves exactly like an absent
one (both take the zero-bias synthesis branch), so it is modelled as
absence. -/
structure ConvSelf where
  input : Tensor
  weight : Tensor
  bias : Option Tensor
  outputs : List Tensor
  stride : List Nat
  padding : List Nat
  dilation : List Nat
  output_padding : List Nat
  groups : Nat
  fusedActivationFunction : Nat := 0
deriving DecidableEq, Repr

/-- Maps a tensor-creating call over a list while threading the factory
counters left to right (a Python list comprehension of factory calls). -/
def mapThread (fac : Fac) (f : Fac → Tensor → Tensor × Fac) (xs : List Tensor) :
    List Tensor × Fac :=
  match xs with
  | [] => ([], fac)
  | x :: rest =>
      let p := f fac x
      let q := mapThread p.2 f rest
      (p.1 :: q.1, q.2)

/-- Result of the dimensionality-normalization step shared by both
convolution lowerings: the (possibly extended) parameter vectors, the
leading/trailing reshape operators, and the (possibly replaced) input/output
tensor lists. -/
structure ConvNorm where
  stride : List Nat
  padding : List Nat
  dilation : List Nat
  output_padding : List Nat
  prevOps : List Op
  nextOps : List Op
  inputs : List Tensor
  outputs : List Tensor
  fac : Fac
deriving Repr

/-- Dimensionality normalization of `GenericConvOperator.transform`
(lines 164-198).  When the weight (or only the input) has rank 3, a unit
spatial axis is inserted: parameter vectors get a leading unit/zero entry
(weight rank 3 only), the first `reshape_input_size` inputs are rerouted
through reshape nodes into rank-4 transform tensors, and the first output is
produced through a trailing reshape from a rank-4 transform tensor. -/
def convDimNorm (fac : Fac) (self : ConvSelf) : ConvNorm :=
  let inputDim := self.input.shape.length
  let weightDim := self.weight.shape.length
  let selfInputs := self.input :: self.weight :: self.bias.toList
  if weightDim = 3 ∨ inputDim = 3 then
    let stride := if weightDim = 3 then 1 :: self.stride else self.stride
    let padding := if weightDim = 3 then 0 :: self.padding else self.padding
    let dilation := if weightDim = 3 then 1 :: self.dilation else self.dilation
    let output_padding := if weightDim = 3 then 0 :: self.output_padding else self.output_padding
    let reshapeInputSize := if weightDim = 3 then 2 else 1
    let base := self.outputs.headI.name
    let rin := selfInputs.take reshapeInputSize
    let reshapeOutputs := rin.map (fun t =>
      (createTransformTensor fac base (some (base ++ "_" ++ t.name ++ "_4d_input"))
        (expandDims2 t.shape) t.dtype t.quantization).1)
    let ra := mapThread fac
      (fun fc t => createAttrTensor fc base none [t.shape.length] DType.int32
        (t.shape.map Int.ofNat) none) reshapeOutputs
    let reshapeOps := List.zipWith3
      (fun old new attr =>
        ({ code := OpCode.reshape, inputs := [old, attr], outputs := [new] } : Op))
      rin reshapeOutputs ra.1
    let convOutputs := (self.outputs.take 1).map (fun t =>
      (createTransformTensor fac base (some (t.name ++ "_4d_output"))
        (expandDims2 t.shape) t.dtype t.quantization).1)
    let ca := mapThread ra.2
      (fun fc t => createAttrTensor fc base none [t.shape.length] DType.int32
        (t.shape.map Int.ofNat) none) (self.outputs.take 1)
    let convOps := List.zipWith3
      (fun old new attr =>
        ({ code := OpCode.reshape, inputs := [old, attr], outputs := [new] } : Op))
      convOutputs (self.outputs.take 1) ca.1
    { stride := stride, padding := padding, dilation := dilation,
      output_padding := output_padding,
      prevOps := reshapeOps, nextOps := convOps,
      inputs := reshapeOutputs ++ selfInputs.drop reshapeInputSize,
      outputs := convOutputs ++ self.outputs.drop 1, fac := ca.2 }
  else
    { stride := self.stride, padding := self.padding, dilation := self.dilation,
      output_padding := self.output_padding, prevOps := [], nextOps := [],
      inputs := selfInputs, outputs := self.outputs, fac := fac }

/-- Result of a generic convolution lowering: the emitted operator chain, the
rewired primitive convolution, whether the grouped-convolution compatibility
warning fired, and the final (mutated) fields of the transformable node. -/
structure ConvResult where
  ops : List Op
  convOp : Op
  warned : Bool
  -- whether the bias phase raised `TypeError` (lines 267-273), aborting the
  -- transform before any operator is inserted into the graph
  raised : Bool := false
  stride : List Nat
  padding : List Nat
  dilation : List Nat
  output_padding : List Nat
  inputs : List Tensor
  outputs : List Tensor
  fac : Fac
deriving Repr

/-- The depthwise test of line 202:
`weight_tensor.shape[1] == 1 and weight_tensor.shape[0] == self.groups`. -/
def convSelectIsDW (weightTensor : Tensor) (groups : Nat) : Bool :=
  (weightTensor.shape.getD 1 0 == 1) && (weightTensor.shape.getD 0 0 == groups)

/-- Primitive selection (lines 202-216): depthwise convolution with depth
multiplier 1 when the test passes, otherwise standard convolution; both with
explicit VALID padding. -/
def convSelectOp (self : ConvSelf) (n : ConvNorm) : Op :=
  if convSelectIsDW (n.inputs.getD 1 default) self.groups then
    { code := OpCode.depthwiseConv2d, inputs := n.inputs, outputs := n.outputs,
      strideH := n.stride.getD 0 0, strideW := n.stride.getD 1 0,
      depthMultiplier := 1,
      dilationH := n.dilation.getD 0 0, dilationW := n.dilation.getD 1 0,
      fusedActivationFunction := self.fusedActivationFunction }
  else
    { code := OpCode.conv2d, inputs := n.inputs, outputs := n.outputs,
      strideH := n.stride.getD 0 0, strideW := n.stride.getD 1 0,
      dilationH := n.dilation.getD 0 0, dilationW := n.dilation.getD 1 0,
      fusedActivationFunction := self.fusedActivationFunction }

/-- Whether the grouped-convolution compatibility warning of lines 210-211
fires: the standard branch was taken and the input channel count differs
from the weight's second axis (the warning reads `input_tensor`, which is
captured before any rank-3 reshape). -/
def convWarned (self : ConvSelf) (n : ConvNorm) : Bool :=
  !convSelectIsDW (n.inputs.getD 1 default) self.groups &&
    (self.input.shape.getD 1 0 != (n.inputs.getD 1 default).shape.getD 1 0)

/-- Result of the pad-materialization phase. -/
structure PadOut where
  ops : List Op
  conv : Op
  fac : Fac
deriving Repr

/-- Pad handling (lines 222-235): when any padding amount is nonzero,
materialize a Pad node reading the pre-transpose's output, reroute the
convolution's input 0 through its output, and remember the node for
insertion at index 1. -/
def convPadPhase (fac : Fac) (base : String) (padding : List Nat)
    (preOp conv1 : Op) : PadOut :=
  if 0 < padding.sum then
    let padH := padding.getD 0 0
    let padW := padding.getD 1 0
    let padSpec : List (Nat × Nat) := [(0, 0), (padH, padH), (padW, padW), (0, 0)]
    let pt := createAttrTensor fac base none [4, 2] DType.int32
      [0, 0, Int.ofNat padH, Int.ofNat padH, Int.ofNat padW, Int.ofNat padW, 0, 0] none
    let padInput := preOp.outputs.headI
    let po := createTransformTensor pt.2 base none (padShape padSpec padInput.shape)
      padInput.dtype padInput.quantization
    { ops := [{ code := OpCode.pad, inputs := [padInput, pt.1], outputs := [po.1] }],
      conv := { conv1 with inputs := conv1.inputs.set 0 po.1 },
      fac := po.2 }
  else
    { ops := [], conv := conv1, fac := fac }

/-- Result of the weight-reordering phase. -/
structure WeightOut where
  reorder : Op
  conv : Op
  fac : Fac
deriving Repr

/-- Weight handling (lines 237-253): permutation [1,2,3,0] when the selected
primitive is depthwise convolution, [0,2,3,1] otherwise; emits a Transpose
producing the reordered weight and rewires the convolution's input 1. -/
def convWeightPhase (fac : Fac) (base : String) (conv2 : Op) : WeightOut :=
  let weight := conv2.inputs.getD 1 default
  let wperm : List Nat :=
    if conv2.code == OpCode.depthwiseConv2d then [1, 2, 3, 0] else [0, 2, 3, 1]
  let permT := createAttrTensor fac base none [4] DType.int32 (wperm.map Int.ofNat) none
  let rw := createTransformTensor permT.2 base none (permuteShape wperm weight.shape)
    weight.dtype weight.quantization
  { reorder := { code := OpCode.transpose, inputs := [weight, permT.1], outputs := [rw.1] },
    conv := { conv2 with inputs := conv2.inputs.set 1 rw.1 },
    fac := rw.2 }

/-- Result of the bias-synthesis phase. -/
structure BiasOut where
  conv : Op
  fac : Fac
  raises : Bool := false
deriving Repr

/-- Bias handling (lines 255-273).  `conv_op.inputs` aliases `self.inputs`
(`BaseOperator` stores the list it is given), so `self.inputs[1]` here is
the reordered weight: the output-channel count is its axis 3 for depthwise
and axis 0 otherwise.  Missing bias: synthesize zeros (float32 when the
convolution input is float32, else int32).  Length-1 bias with a different
required length (lines 267-273): `torch.tensor([...] * kernel_num,
dtype='float32')` passes a string dtype, which `torch.tensor` rejects with
`TypeError`; the exception is thrown while evaluating the argument of
`create_attr_tensor`, so no tensor is created, nothing is assigned, and the
transform aborts (`raises`).  Otherwise: pass through. -/
def convBiasPhase (fac : Fac) (base : String) (conv3 : Op) : BiasOut :=
  let kernelNum :=
    if conv3.code == OpCode.depthwiseConv2d then
      (conv3.inputs.getD 1 default).shape.getD 3 0
    else
      (conv3.inputs.getD 1 default).shape.getD 0 0
  if conv3.inputs.length = 2 then
    let dt := if (conv3.inputs.headI).dtype == DType.float32
      then DType.float32 else DType.int32
    let bt := createAttrTensor fac base none [kernelNum] dt
      (List.replicate kernelNum 0) none
    { conv := { conv3 with inputs := conv3.inputs ++ [bt.1] }, fac := bt.2 }
  else if (conv3.inputs.getD 2 default).shape.getD 0 0 ≠ kernelNum ∧
      (conv3.inputs.getD 2 default).shape.getD 0 0 = 1 then
    { conv := conv3, fac := fac, raises := true }
  else
    { conv := conv3, fac := fac }

/-- The body of `GenericConvOperator.transform` (lines 154-280) after the
rank check: dimensionality normalization, primitive selection, layout wrap,
pad materialization, weight reordering, bias synthesis, and chain assembly
with the insert order of lines 235/253 ([pre-transpose, weight-transpose,
pad?, conv, post-transpose]). -/
def convTransformCore (self : ConvSelf) : ConvResult :=
  let n := convDimNorm {} self
  let base := n.outputs.headI.name
  let convOp0 := convSelectOp self n
  -- Layout wrap (line 218); `conv_op = ops[1]` (line 219)
  let wr := wrapOps n.fac base [convOp0] 0 0
  let preOp := wr.1.headI
  let conv1 := wr.1.getD 1 default
  let postOp := wr.1.getD 2 default
  let pp := convPadPhase wr.2 base n.padding preOp conv1
  let wp := convWeightPhase pp.fac base pp.conv
  let bp := convBiasPhase wp.fac base wp.conv
  let ops := n.prevOps ++ ([preOp, wp.reorder] ++ pp.ops ++ [bp.conv, postOp]) ++ n.nextOps
  { ops := ops, convOp := bp.conv, warned := convWarned self n,
    raised := bp.raises,
    stride := n.stride, padding := n.padding, dilation := n.dilation,
    output_padding := n.output_padding,
    inputs := bp.conv.inputs,
    -- `conv_op.outputs` aliases `self.outputs`; the wrap set index 0 to the
    -- new NHWC output tensor (= the post-transpose's first input)
    outputs := n.outputs.set 0 (postOp.inputs.headI),
    fac := bp.fac }

/-- `GenericConvOperator.transform` with the rank precondition of
lines 199-200 (`assert False` when neither branch of the dimensionality
check applies and the weight is not rank 4), and the `TypeError` of the
length-1 bias broadcast branch (lines 267-273): when that branch fires the
method raises before the `add_operator` loop of line 278, so no operator is
emitted and no result is produced. -/
def convTransform (self : ConvSelf) : Except String ConvResult :=
  if ¬(self.weight.shape.length = 3 ∨ self.input.shape.length = 3) ∧
      self.weight.shape.length ≠ 4 then
    Except.error "Only Conv[Transpose]1d/2d is supported"
  else if (convTransformCore self).raised then
    Except.error "TypeError: torch.tensor received a string dtype"
  else
    Except.ok (convTransformCore self)

/-! ### The post-condition check (lines 282-289) -/

/-- What the lowering can observe of the surrounding graph after insertion
and edge restoration: per output-tensor name, the node's out-degree and
whether its first successor is a constant-valued node
(`graph_converter.tensor_node_map` + igraph queries). -/
structure GraphEnv where
  outdegOfTensor : String → Nat
  firstSuccIsConst : String → Bool

/-- One pass of the loop of lines 282-289 over a list of operators: each
operator's first output must have out-degree ≥ 1 and a non-constant first
successor; a violation raises (assertion failure). -/
def postCheckList (g : GraphEnv) (ops : List Op) : Except String Unit :=
  match ops with
  | [] => Except.ok ()
  | op :: rest =>
      let nm := op.outputs.headI.name
      if g.outdegOfTensor nm = 0 then
        Except.error ("assert: outdegree of node is zero: " ++ nm)
      else if g.firstSuccIsConst nm then
        Except.error ("assert: successor is a constant node: " ++ nm)
      else postCheckList g rest

/-- The post-condition check runs over every emitted operator except the
last (`ops[:-1]`). -/
def convPostCheck (g : GraphEnv) (ops : List Op) : Except String Unit :=
  postCheckList g ops.dropLast

/-- `GenericConvOperator.transform` including the trailing
internal-consistency check (lines 282-289). -/
def convTransformChecked (g : GraphEnv) (self : ConvSelf) : Except String ConvResult :=
  match convTransform self with
  | Except.error e => Except.error e
  | Except.ok r =>
      match convPostCheck g r.ops with
      | Except.error e => Except.error e
      | Except.ok _ => Except.ok r

/-! ### Generic transposed-convolution lowering
(`GenericTransposeConvOperator.transform`, transformable.py lines 315-410). -/

/-- The GenericTransposeConv transformable node (same input layout as
`ConvSelf`). -/
structure DeconvSelf where
  input : Tensor
  weight : Tensor
  bias : Option Tensor
  outputs : List Tensor
  stride : List Nat
  padding : List Nat
  dilation : List Nat
  output_padding : List Nat
  groups : Nat
deriving DecidableEq, Repr

/-- Dimensionality normalization of
`GenericTransposeConvOperator.transform` (lines 323-352): triggered by a
rank-3 weight only, always reshaping the first two inputs. -/
def deconvDimNorm (fac : Fac) (self : DeconvSelf) : ConvNorm :=
  let weightDim := self.weight.shape.length
  let selfInputs := self.input :: self.weight :: self.bias.toList
  if weightDim = 3 then
    let base := self.outputs.headI.name
    let rin := selfInputs.take 2
    let reshapeOutputs := rin.map (fun t =>
      (createTransformTensor fac base (some (base ++ "_" ++ t.name ++ "_4d_input"))
        (expandDims2 t.shape) t.dtype t.quantization).1)
    let ra := mapThread fac
      (fun fc t => createAttrTensor fc base none [t.shape.length] DType.int32
        (t.shape.map Int.ofNat) none) reshapeOutputs
    let reshapeOps := List.zipWith3
      (fun old new attr =>
        ({ code := OpCode.reshape, inputs := [old, attr], outputs := [new] } : Op))
      rin reshapeOutputs ra.1
    let convOutputs := (self.outputs.take 1).map (fun t =>
      (createTransformTensor fac base (some (base ++ "_4d_output"))
        (expandDims2 t.shape) t.dtype t.quantization).1)
    let ca := mapThread ra.2
      (fun fc t => createAttrTensor fc base none [t.shape.length] DType.int32
        (t.shape.map Int.ofNat) none) (self.outputs.take 1)
    let convOps := List.zipWith3
      (fun old new attr =>
        ({ code := OpCode.reshape, inputs := [old, attr], outputs := [new] } : Op))
      convOutputs (self.outputs.take 1) ca.1
    { stride := 1 :: self.stride, padding := 0 :: self.padding,
      dilation := 1 :: self.dilation, output_padding := 0 :: self.output_padding,
      prevOps := reshapeOps, nextOps := convOps,
      inputs := reshapeOutputs ++ selfInputs.drop 2,
      outputs := convOutputs ++ self.outputs.drop 1, fac := ca.2 }
  else
    { stride := self.stride, padding := self.padding, dilation := self.dilation,
      output_padding := self.output_padding, prevOps := [], nextOps := [],
      inputs := selfInputs, outputs := self.outputs, fac := fac }

/-- Result of a generic transposed-convolution lowering. -/
structure DeconvResult where
  ops : List Op
  convOp : Op
  stride : List Nat
  padding : List Nat
  dilation : List Nat
  output_padding : List Nat
  inputs : List Tensor
  outputs : List Tensor
  fac : Fac
deriving Repr

/-- Result of the transposed convolution's crop phase. -/
structure SliceOut where
  ops : List Op
  conv : Op
  fac : Fac
  outputShape : List Nat
deriving Repr

/-- Pad handling of the transposed convolution (lines 362-381): the
uncropped output shape is read first (line 362); when padding is nonzero a
Slice crop is materialized after the primitive (`ops.insert(2, slice_op)`),
the primitive's (aliased) output 0 is redirected to a fresh padded tensor,
and the output shape becomes the padded shape. -/
def deconvSlicePhase (fac : Fac) (base : String) (padding : List Nat)
    (conv1 : Op) : SliceOut :=
  let outputShape0 := conv1.outputs.headI.shape
  if 0 < padding.sum then
    let padH := padding.getD 0 0
    let padW := padding.getD 1 0
    let st := createAttrTensor fac base none [4] DType.int32
      [0, Int.ofNat padH, Int.ofNat padW, 0] none
    let szt := createAttrTensor st.2 base none [4] DType.int32
      (conv1.outputs.headI.shape.map Int.ofNat) none
    let sliceOut := conv1.outputs.headI
    let padSpec : List (Nat × Nat) := [(0, 0), (padH, padH), (padW, padW), (0, 0)]
    -- line 375: np.pad(self.outputs[0].tensor, ...); self.outputs[0] is, by
    -- aliasing, the wrap's new NHWC output tensor
    let si := createTransformTensor szt.2 base none
      (padShape padSpec conv1.outputs.headI.shape) conv1.outputs.headI.dtype
      conv1.outputs.headI.quantization
    { ops := [{ code := OpCode.slice, inputs := [si.1, st.1, szt.1],
                outputs := [sliceOut] }],
      conv := { conv1 with outputs := conv1.outputs.set 0 si.1 },
      fac := si.2, outputShape := si.1.shape }
  else
    { ops := [], conv := conv1, fac := fac, outputShape := outputShape0 }

/-- Weight handling of the transposed convolution (lines 388-395):
permutation [1,2,3,0] unconditionally; by this point the output-shape
tensor occupies input slot 0, so the weight is input slot 1. -/
def deconvWeightPhase (fac : Fac) (base : String) (conv3 : Op) : WeightOut :=
  let weight := conv3.inputs.getD 1 default
  let permT := createAttrTensor fac base none [4] DType.int32 [1, 2, 3, 0] none
  let rw := createTransformTensor permT.2 base none
    (permuteShape [1, 2, 3, 0] weight.shape) weight.dtype weight.quantization
  { reorder := { code := OpCode.transpose, inputs := [weight, permT.1], outputs := [rw.1] },
    conv := { conv3 with inputs := conv3.inputs.set 1 rw.1 },
    fac := rw.2 }

/-- Result of the transposed convolution's bias phase: the rewritten
[conv, slice?] segment (plus the Add when a bias exists) and the tensor the
redirected last element now writes, if any. -/
structure DeconvBiasOut where
  ops : List Op
  fac : Fac
  redirected : Option Tensor
deriving Repr

/-- Bias handling of the transposed convolution (lines 398-403): when a
bias tensor exists, `ops[-2]`'s output 0 is redirected through a fresh
transform tensor and an Add of the bias is inserted before the
post-transpose. -/
def deconvBiasPhase (fac : Fac) (base : String) (hasBias : Bool)
    (biasTensor : Tensor) (chain : List Op) : DeconvBiasOut :=
  if hasBias then
    let addOut := (chain.getLastD default).outputs.headI
    let bt := createTransformTensor fac base none addOut.shape addOut.dtype none
    let addOp : Op := { code := OpCode.add, inputs := [bt.1, biasTensor],
                        outputs := [addOut] }
    { ops := setLastOutput chain 0 bt.1 ++ [addOp], fac := bt.2, redirected := some bt.1 }
  else
    { ops := chain, fac := fac, redirected := none }

/-- The body of `GenericTransposeConvOperator.transform` (lines 315-410)
after the rank check.  The primitive takes `self.inputs[:2][::-1]` (weight
first, a fresh list), the layout wrap targets chain input index 1, padding
becomes a post-hoc `Slice` crop, an explicit output-shape tensor is
prepended (lines 384-385), weight reordering uses [1,2,3,0], and a supplied
bias becomes a trailing `Add`.  `conv_op.outputs` aliases `self.outputs`
(the constructor receives that list). -/
def deconvTransformCore (self : DeconvSelf) : DeconvResult :=
  let n := deconvDimNorm {} self
  let base := n.outputs.headI.name
  -- lines 356-357: TransposeConvOperator(self.inputs[:2][::-1], self.outputs, ...)
  let convOp0 : Op :=
    { code := OpCode.transposeConv,
      inputs := [n.inputs.getD 1 default, n.inputs.getD 0 default],
      outputs := n.outputs,
      strideH := n.stride.getD 0 0, strideW := n.stride.getD 1 0 }
  -- line 359: wrap with input_idx=1 (the data input; slot 0 is the weight)
  let wr := wrapOps n.fac base [convOp0] 1 0
  let preOp := wr.1.headI
  let conv1 := wr.1.getD 1 default
  let postOp := wr.1.getD 2 default
  let sp := deconvSlicePhase wr.2 base n.padding conv1
  -- Output shape handling (lines 384-385): `conv_op.inputs.insert(0, ...)`
  let ost := createAttrTensor sp.fac base none [4] DType.int32
    (sp.outputShape.map Int.ofNat) none
  let conv3 := { sp.conv with inputs := ost.1 :: sp.conv.inputs }
  let wp := deconvWeightPhase ost.2 base conv3
  -- chain segment [conv, slice?]; `ops.insert(1, reorder_op)` puts the
  -- reorder right after the pre-transpose
  let bp := deconvBiasPhase wp.fac base (decide (2 < n.inputs.length))
    (n.inputs.getD 2 default) ([wp.conv] ++ sp.ops)
  -- final order: [pre, reorder, conv, slice?, add?, post] (line 405)
  let ops := n.prevOps ++ ([preOp, wp.reorder] ++ bp.ops ++ [postOp]) ++ n.nextOps
  -- final self.outputs[0]: the slice phase redirected the (aliased) conv
  -- output when padding is nonzero; otherwise the bias phase redirected it
  -- when a bias exists; otherwise it is the wrap's new output tensor
  let finalOut0 :=
    if 0 < n.padding.sum then sp.conv.outputs.headI
    else
      match bp.redirected with
      | some t => t
      | none => conv1.outputs.headI
  { ops := ops, convOp := bp.ops.headI,
    stride := n.stride, padding := n.padding, dilation := n.dilation,
    output_padding := n.output_padding,
    inputs := n.inputs, outputs := n.outputs.set 0 finalOut0, fac := bp.fac }

/-- `GenericTransposeConvOperator.transform` with the rank precondition of
lines 353-354. -/
def deconvTransform (self : DeconvSelf) : Except String DeconvResult :=
  let weightDim := self.weight.shape.length
  if weightDim ≠ 3 ∧ weightDim ≠ 4 then
    Except.error "Only Conv[Transpose]1d/2d is supported"
  else
    Except.ok (deconvTransformCore self)

/-- `GenericTransposeConvOperator.transform` as invoked with the graph in
scope: the method ends after `try_restore_edges` (line 410) and performs no
post-condition check, so the graph environment is never consulted. -/
def deconvTransformChecked (g : GraphEnv) (self : DeconvSelf) :
    Except String DeconvResult :=
  deconvTransform self

/-! ### Concrete instances used by the example-level theorems -/

/-- A quantized BatchNorm node: input `x` carries quantization parameters. -/
def bnQuantExample : BatchNormSelf :=
  { input := { name := "x", shape := [1, 2, 4, 4], dtype := DType.int8,
               quantization := some {} }
    weight := { name := "w", shape := [2], hasBuffer := true }
    bias := { name := "b", shape := [2], hasBuffer := true }
    runningMean := { name := "m", shape := [2], hasBuffer := true }
    runningVar := { name := "v", shape := [2], hasBuffer := true }
    outputs := [{ name := "out", shape := [1, 2, 4, 4], dtype := DType.int8,
                  quantization := some {} }] }

/-- The same BatchNorm node with an unquantized input. -/
def bnFloatExample : BatchNormSelf :=
  { bnQuantExample with
    input := { name := "x", shape := [1, 2, 4, 4] }
    outputs := [{ name := "out", shape := [1, 2, 4, 4] }] }

/-- The spec's end-to-end standard convolution example: input (1,3,8,8),
weight (4,3,3,3), stride (1,1), padding (1,1), no bias, groups 1. -/
def convExample2d : ConvSelf :=
  { input := { name := "x", shape := [1, 3, 8, 8] }
    weight := { name := "w", shape := [4, 3, 3, 3], hasBuffer := true }
    bias := none
    outputs := [{ name := "out", shape := [1, 4, 8, 8] }]
    stride := [1, 1], padding := [1, 1], dilation := [1, 1],
    output_padding := [0, 0], groups := 1 }

/-- The spec's depthwise example: input (1,4,8,8), weight (4,1,3,3),
groups 4, padding (0,0). -/
def convExampleDW : ConvSelf :=
  { input := { name := "x", shape := [1, 4, 8, 8] }
    weight := { name := "w", shape := [4, 1, 3, 3], hasBuffer := true }
    bias := none
    outputs := [{ name := "out", shape := [1, 4, 6, 6] }]
    stride := [1, 1], padding := [0, 0], dilation := [1, 1],
    output_padding := [0, 0], groups := 4 }

/-- A rank-3 (1-D) convolution: input (1,3,10), weight (4,3,3), no padding. -/
def convExample1d : ConvSelf :=
  { input := { name := "x", shape := [1, 3, 10] }
    weight := { name := "w", shape := [4, 3, 3], hasBuffer := true }
    bias := none
    outputs := [{ name := "out", shape := [1, 4, 8] }]
    stride := [1], padding := [0], dilation := [1],
    output_padding := [0], groups := 1 }

/-- A length-1 bias tensor whose broadcast to 4 output channels the source
attempts — and aborts — in the branch of lines 267-273. -/
def biasOne : Tensor :=
  { name := "b", shape := [1], hasBuffer := true, data := [5] }

/-- A 2-D convolution with a supplied length-1 bias and 4 output channels:
the lowering reaches the broadcast branch and raises `TypeError`. -/
def convExampleBias1 : ConvSelf :=
  { input := { name := "x", shape := [1, 3, 8, 8] }
    weight := { name := "w", shape := [4, 3, 3, 3], hasBuffer := true }
    bias := some biasOne
    outputs := [{ name := "out", shape := [1, 4, 8, 8] }]
    stride := [1, 1], padding := [0, 0], dilation := [1, 1],
    output_padding := [0, 0], groups := 1 }

/-- A transposed convolution with bias and nonzero padding. -/
def deconvExample : DeconvSelf :=
  { input := { name := "x", shape := [1, 3, 8, 8] }
    weight := { name := "w", shape := [3, 4, 3, 3], hasBuffer := true }
    bias := some { name := "b", shape := [4], hasBuffer := true, data := [1, 2, 3, 4] }
    outputs := [{ name := "out", shape := [1, 4, 8, 8] }]
    stride := [1, 1], padding := [1, 1], dilation := [1, 1],
    output_padding := [0, 0], groups := 1 }

/-- A 1-D (rank-3 weight) transposed convolution. -/
def deconvExample1d : DeconvSelf :=
  { input := { name := "x", shape := [1, 3, 10] }
    weight := { name := "w", shape := [3, 4, 3], hasBuffer := true }
    bias := none
    outputs := [{ name := "dout", shape := [1, 4, 12] }]
    stride := [1], padding := [0], dilation := [1],
    output_padding := [0], groups := 1 }


/-! ### Claim-level specification predicates -/

/-- Claim C2's amended count: 1 convolution + 2 layout transposes + 1 weight
transpose, + 1 when any padding amount is nonzero, + 3 when the weight has
rank 3 (reshapes for input, weight and output), + 2 when only the input has
rank 3 (reshapes for input and output). -/
def ConvOpCount (self : ConvSelf) : Nat :=
  4 + (if 0 < self.padding.sum then 1 else 0) +
    (if self.weight.shape.length = 3 then 3
     else if self.input.shape.length = 3 then 2 else 0)

/-- Claim C6's content: the depthwise primitive is selected iff the weight's
second axis is 1 and its first axis equals the group count (with depth
multiplier 1); otherwise the standard primitive is selected, and the
compatibility warning fires exactly when additionally the input channel
count differs from the weight's second axis; lowering emits in all cases. -/
def ConvSelectSpec (self : ConvSelf) (r : ConvResult) : Prop :=
  (r.convOp.code = OpCode.depthwiseConv2d ↔
      self.weight.shape.getD 1 0 = 1 ∧ self.weight.shape.getD 0 0 = self.groups) ∧
  (r.convOp.code ≠ OpCode.depthwiseConv2d → r.convOp.code = OpCode.conv2d) ∧
  (r.convOp.code = OpCode.depthwiseConv2d → r.convOp.depthMultiplier = 1) ∧
  (r.warned = true ↔
      ¬(self.weight.shape.getD 1 0 = 1 ∧ self.weight.shape.getD 0 0 = self.groups) ∧
      self.input.shape.getD 1 0 ≠ self.weight.shape.getD 1 0) ∧
  r.ops ≠ []

/-- Claim C4's amended content: the emitted weight transpose reads the
original weight, carries permutation [1,2,3,0] (depthwise) or [0,2,3,1]
(standard), and its output shape is 1 x spatial x spatial x output-channels
for depthwise and output-channels x spatial x spatial x input-channels for
standard convolution. -/
def ConvWeightPermSpec (self : ConvSelf) (r : ConvResult) (o c k1 k2 : Nat) : Prop :=
  ((r.ops.getD 1 default).inputs.headI = self.weight) ∧
  (c = 1 ∧ o = self.groups →
    ((r.ops.getD 1 default).inputs.getD 1 default).data = [1, 2, 3, 0] ∧
    (r.ops.getD 1 default).outputs.headI.shape = [1, k1, k2, o] ∧
    r.convOp.code = OpCode.depthwiseConv2d) ∧
  (¬(c = 1 ∧ o = self.groups) →
    ((r.ops.getD 1 default).inputs.getD 1 default).data = [0, 2, 3, 1] ∧
    (r.ops.getD 1 default).outputs.headI.shape = [o, k1, k2, c] ∧
    r.convOp.code = OpCode.conv2d)

/-- Claim C5's realizable content, `outCh` being the output-channel count: a
missing bias becomes a zero vector of length `outCh` (float32 for a float32
input, int32 otherwise); a supplied bias outside the broadcast condition
passes through unchanged.  The claim's third scenario — a supplied length-1
bias with a larger required length — never completes: the broadcast branch
raises `TypeError` (see `convBiasPhase`), which the claim theorem exhibits
separately. -/
def ConvBiasSpec (self : ConvSelf) (r : ConvResult) (outCh : Nat) : Prop :=
  (self.bias = none →
    (r.convOp.inputs.getD 2 default).shape = [outCh] ∧
    (r.convOp.inputs.getD 2 default).data = List.replicate outCh 0 ∧
    (r.convOp.inputs.getD 2 default).dtype =
      (if self.input.dtype = DType.float32 then DType.float32 else DType.int32)) ∧
  (∀ b : Tensor, self.bias = some b → ¬(b.shape.getD 0 0 = 1 ∧ outCh ≠ 1) →
    r.convOp.inputs.getD 2 default = b)


/-- Claim C7's content: wrapping a non-empty chain yields
[pre-transpose] ++ chain ++ [post-transpose]; the pre-transpose reads the
original input tensor and the post-transpose writes the original output
tensor; the two fresh transform tensors carry the permuted shape and the
originals' quantization; and every chain operator is unchanged except that
the first operator's designated input and last operator's designated output
are redirected to the fresh tensors. -/
def WrapSpec (fac : Fac) (base : String) (ops : List Op) (i o : Nat) : Prop :=
  let res := (wrapOps fac base ops i o).1
  let origIn := (ops.headI).inputs.getD i default
  let origOut := (ops.getLastD default).outputs.getD o default
  let newIn := res.headI.outputs.headI
  let newOut := (res.getLastD default).inputs.headI
  res.length = ops.length + 2 ∧
  res.headI.code = OpCode.transpose ∧
  res.headI.inputs.headI = origIn ∧
  (res.getLastD default).code = OpCode.transpose ∧
  (res.getLastD default).outputs.headI = origOut ∧
  newIn.shape = permuteShape nchw2nhwcPerm origIn.shape ∧
  newIn.quantization = origIn.quantization ∧
  newIn.hasBuffer = false ∧
  newIn.name = transformAutoName base fac.transformCount ∧
  newOut.shape = permuteShape nchw2nhwcPerm origOut.shape ∧
  newOut.quantization = origOut.quantization ∧
  newOut.hasBuffer = false ∧
  newOut.name = transformAutoName base (fac.transformCount + 1) ∧
  (res.drop 1).dropLast =
    setLastOutput (setHeadInput ops i newIn) o newOut ∧
  (∀ k : Nat, ((res.drop 1).dropLast)[k]? = (ops[k]?).map (fun op =>
    if k = ops.length - 1 then
      { (if k = 0 then { op with inputs := op.inputs.set i newIn } else op) with
        outputs :=
          (if k = 0 then { op with inputs := op.inputs.set i newIn } else op).outputs.set
            o newOut }
    else (if k = 0 then { op with inputs := op.inputs.set i newIn } else op)))


/-- A sample primitive operator for the wrapper witness. -/
def wrapExampleOp : Op :=
  { code := OpCode.conv2d,
    inputs := [{ name := "x", shape := [1, 3, 8, 8] },
               { name := "w", shape := [4, 3, 3, 3], hasBuffer := true }],
    outputs := [{ name := "y", shape := [1, 4, 8, 8] }] }

/-! ### Auxiliary definitions for the name-generation analysis -/

/-- Decimal digit characters of a natural number, most significant first
(the mathematical reading of `Nat.toDigitsCore`, which renders the counters
in the generated tensor names). -/
def decDigits (n : Nat) : List Char :=
  if h : n < 10 then [Nat.digitChar n]
  else decDigits (n / 10) ++ [Nat.digitChar (n % 10)]
decreasing_by exact Nat.div_lt_self (by omega) (by omega)

/-- Reads a decimal digit list back into a number. -/
def ofDecDigits (l : List Char) : Nat :=
  l.foldl (fun acc c => acc * 10 + (c.toNat - 48)) 0

/-- Claim C9's amended content as a predicate on the base name: the factory
derives auto-generated names from the owning operator's first output name
with suffixes `_te_attr`, `_te_attr_1`, … and `_te_transform`,
`_te_transform_1`, …, bumping the per-kind counter, and no two generated
names (of either kind) with distinct counters collide. -/
def FactoryNameSpec (base : String) : Prop :=
  (∀ (fac : Fac) (sh : List Nat) (dt : DType) (d : List Int) (q : Option QuantParams),
      (createAttrTensor fac base none sh dt d q).1.name = attrAutoName base fac.attrCount ∧
      (createAttrTensor fac base none sh dt d q).2.attrCount = fac.attrCount + 1 ∧
      (createAttrTensor fac base none sh dt d q).2.transformCount = fac.transformCount) ∧
  (∀ (fac : Fac) (sh : List Nat) (dt : DType) (q : Option QuantParams),
      (createTransformTensor fac base none sh dt q).1.name =
        transformAutoName base fac.transformCount ∧
      (createTransformTensor fac base none sh dt q).2.transformCount =
        fac.transformCount + 1 ∧
      (createTransformTensor fac base none sh dt q).2.attrCount = fac.attrCount) ∧
  (∀ i j : Nat, i ≠ j → attrAutoName base i ≠ attrAutoName base j) ∧
  (∀ i j : Nat, i ≠ j → transformAutoName base i ≠ transformAutoName base j) ∧
  (∀ i j : Nat, attrAutoName base i ≠ transformAutoName base j)

/-- Spec predicate for the convolution post-check (C8): the checked transform
succeeds exactly when every emitted operator except the last has a first
output tensor whose graph node keeps out-degree at least 1 and whose first
successor is not a constant node; and the transposed-convolution checked
transform never consults the graph at all. -/
def PostCheckSpec (g : GraphEnv) (cself : ConvSelf) (r : ConvResult)
    (dself : DeconvSelf) : Prop :=
  ((convTransformChecked g cself).isOk = true ↔
    ∀ op ∈ r.ops.dropLast, 0 < g.outdegOfTensor op.outputs.headI.name ∧
      g.firstSuccIsConst op.outputs.headI.name = false) ∧
  (∀ g' : GraphEnv, deconvTransformChecked g dself = deconvTransformChecked g' dself)

/-- A graph environment in which every tensor passes the post-check. -/
def graphEnvAllOk : GraphEnv :=
  { outdegOfTensor := fun _ => 1, firstSuccIsConst := fun _ => false }

/-- Spec predicate for C10, convolution side: the node's own parameter fields
after one transform call — each parameter vector has gained a leading
unit/zero entry (so none equals its constructed value), the
dimensionality-normalization step rebased the input/output heads onto
`expand_dims(., 2)` rank-4 replacement tensors, and the final head tensors
are rank 4 and distinct from the constructed ones. -/
def ConvMutationSpec (self : ConvSelf) (r : ConvResult) : Prop :=
  r.stride = 1 :: self.stride ∧ r.stride ≠ self.stride ∧
  r.padding = 0 :: self.padding ∧ r.padding ≠ self.padding ∧
  r.dilation = 1 :: self.dilation ∧ r.dilation ≠ self.dilation ∧
  r.output_padding = 0 :: self.output_padding ∧ r.output_padding ≠ self.output_padding ∧
  (convDimNorm {} self).inputs.headI.shape = expandDims2 self.input.shape ∧
  (convDimNorm {} self).outputs.headI.shape = expandDims2 self.outputs.headI.shape ∧
  r.inputs.headI.shape.length = 4 ∧ r.inputs.headI ≠ self.input ∧
  r.outputs.headI.shape.length = 4 ∧ r.outputs.headI ≠ self.outputs.headI

/-- Spec predicate for C10, transposed-convolution side. -/
def DeconvMutationSpec (self : DeconvSelf) (r : DeconvResult) : Prop :=
  r.stride = 1 :: self.stride ∧ r.stride ≠ self.stride ∧
  r.padding = 0 :: self.padding ∧ r.padding ≠ self.padding ∧
  r.dilation = 1 :: self.dilation ∧ r.dilation ≠ self.dilation ∧
  r.output_padding = 0 :: self.output_padding ∧ r.output_padding ≠ self.output_padding ∧
  (deconvDimNorm {} self).inputs.headI.shape = expandDims2 self.input.shape ∧
  (deconvDimNorm {} self).outputs.headI.shape = expandDims2 self.outputs.headI.shape ∧
  r.inputs.headI.shape.length = 4 ∧ r.inputs.headI ≠ self.input ∧
  r.outputs.headI.shape.length = 4 ∧ r.outputs.headI ≠ self.outputs.headI


/-! ### Auxiliary lemmas: decimal names are collision-free -/

lemma decDigits_lt10 (n : Nat) (h : n < 10) : decDigits n = [Nat.digitChar n] := by
  rw [decDigits]
  simp [h]

lemma decDigits_ge10 (n : Nat) (h : ¬ n < 10) :
    decDigits n = decDigits (n / 10) ++ [Nat.digitChar (n % 10)] := by
  rw [decDigits]
  simp [h]

lemma digitChar_val (d : Nat) (h : d < 10) : (Nat.digitChar d).toNat - 48 = d := by
  interval_cases d <;> rfl

lemma ofDecDigits_decDigits (n : Nat) : ofDecDigits (decDigits n) = n := by
  induction n using Nat.strong_induction_on with
  | _ n ih =>
    by_cases h : n < 10
    · rw [decDigits_lt10 n h]
      simp [ofDecDigits, digitChar_val n h]
    · rw [decDigits_ge10 n h]
      unfold ofDecDigits
      rw [List.foldl_append]
      have h1 : n / 10 < n := Nat.div_lt_self (by omega) (by omega)
      have h2 := ih (n / 10) h1
      unfold ofDecDigits at h2
      rw [h2]
      simp [digitChar_val (n % 10) (Nat.mod_lt _ (by omega))]
      omega

lemma decDigits_injective {a b : Nat} (h : decDigits a = decDigits b) : a = b := by
  have := congrArg ofDecDigits h
  rwa [ofDecDigits_decDigits, ofDecDigits_decDigits] at this

lemma toDigitsCore_eq (f : Nat) : ∀ (n : Nat) (l : List Char), n < f →
    Nat.toDigitsCore 10 f n l = decDigits n ++ l := by
  induction f with
  | zero => intro n l h; omega
  | succ f ih =>
      intro n l h
      unfold Nat.toDigitsCore
      by_cases h10 : n / 10 = 0
      · have hn : n < 10 := by
          by_contra h'
          have h1 : 1 ≤ n / 10 := (Nat.le_div_iff_mul_le (by omega)).mpr (by omega)
          omega
        simp [h10, decDigits_lt10 n hn, Nat.mod_eq_of_lt hn]
      · have hn : ¬ n < 10 := by
          intro hlt
          exact h10 (Nat.div_eq_of_lt hlt)
        have hd : n / 10 < n := Nat.div_lt_self (by omega) (by omega)
        simp only [h10, if_false]
        rw [ih (n / 10) (Nat.digitChar (n % 10) :: l) (by omega)]
        rw [decDigits_ge10 n hn]
        simp

lemma toDigits_eq (n : Nat) : Nat.toDigits 10 n = decDigits n := by
  unfold Nat.toDigits
  rw [toDigitsCore_eq (n + 1) n [] (Nat.lt_succ_self n)]
  simp

lemma natRepr_injective : Function.Injective Nat.repr := by
  intro a b h
  unfold Nat.repr at h
  rw [List.asString_inj] at h
  rw [toDigits_eq, toDigits_eq] at h
  exact decDigits_injective h

lemma str_cancel (s : String) {a b : String} (h : s ++ a = s ++ b) : a.data = b.data := by
  have hd := congrArg String.data h
  rw [String.data_append, String.data_append] at hd
  exact List.append_cancel_left hd

lemma str_data_inj {a b : String} (h : a.data = b.data) : a = b :=
  String.toList_inj.mp h

lemma repr_data_eq (n : Nat) : (Nat.repr n).data = decDigits n := by
  unfold Nat.repr
  rw [toDigits_eq]
  exact List.toList_asString (decDigits n)

lemma decDigits_ne_nil (n : Nat) : decDigits n ≠ [] := by
  by_cases h : n < 10
  · rw [decDigits_lt10 n h]; simp
  · rw [decDigits_ge10 n h]; simp

lemma repr_data_len_pos (n : Nat) : 1 ≤ (Nat.repr n).data.length := by
  rw [repr_data_eq]
  cases hh : decDigits n with
  | nil => exact absurd hh (decDigits_ne_nil n)
  | cons a t => simp

lemma attr_len_mixed (base : String) (r : String) (hr : 1 ≤ r.data.length)
    (p q : String) (hp : p.data.length + 1 ≤ q.data.length) :
    base ++ p ≠ base ++ q ++ r := by
  intro he
  have hd := congrArg (fun s => s.data.length) he
  simp only [String.data_append, List.length_append] at hd
  omega

lemma attrAutoName_inj (base : String) {i j : Nat} (h : i ≠ j) :
    attrAutoName base i ≠ attrAutoName base j := by
  unfold attrAutoName
  match i, j with
  | 0, 0 => exact absurd rfl h
  | 0, j + 1 =>
      simp only [if_pos, Nat.succ_ne_zero, if_neg]
      exact attr_len_mixed base (Nat.repr (j + 1)) (repr_data_len_pos (j + 1))
        "_te_attr" "_te_attr_" (by decide)
  | i + 1, 0 =>
      simp only [if_pos, Nat.succ_ne_zero, if_neg]
      exact fun he => attr_len_mixed base (Nat.repr (i + 1)) (repr_data_len_pos (i + 1))
        "_te_attr" "_te_attr_" (by decide) he.symm
  | i + 1, j + 1 =>
      simp only [Nat.succ_ne_zero, if_neg]
      intro he
      have hd := str_cancel (base ++ "_te_attr_") he
      exact h (by simpa using natRepr_injective (str_data_inj hd))

lemma transformAutoName_inj (base : String) {i j : Nat} (h : i ≠ j) :
    transformAutoName base i ≠ transformAutoName base j := by
  unfold transformAutoName
  match i, j with
  | 0, 0 => exact absurd rfl h
  | 0, j + 1 =>
      simp only [if_pos, Nat.succ_ne_zero, if_neg]
      exact attr_len_mixed base (Nat.repr (j + 1)) (repr_data_len_pos (j + 1))
        "_te_transform" "_te_transform_" (by decide)
  | i + 1, 0 =>
      simp only [if_pos, Nat.succ_ne_zero, if_neg]
      exact fun he => attr_len_mixed base (Nat.repr (i + 1)) (repr_data_len_pos (i + 1))
        "_te_transform" "_te_transform_" (by decide) he.symm
  | i + 1, j + 1 =>
      simp only [Nat.succ_ne_zero, if_neg]
      intro he
      have hd := str_cancel (base ++ "_te_transform_") he
      exact h (by simpa using natRepr_injective (str_data_inj hd))

lemma cross_char_ne (base : String) (x y : String) (hx : x.data.getD 4 'z' = 'a')
    (hy : y.data.getD 4 'z' = 't') : base ++ x ≠ base ++ y := by
  intro he
  have hd := str_cancel base he
  rw [hd, hy] at hx
  exact absurd hx (by decide)

lemma getD4_attr_sfx (r : String) : (("_te_attr_" ++ r) : String).data.getD 4 'z' = 'a' := by
  rw [String.data_append]
  rw [List.getD_append ("_te_attr_" : String).data r.data 'z' 4 (by decide)]
  decide

lemma getD4_tf_sfx (r : String) : (("_te_transform_" ++ r) : String).data.getD 4 'z' = 't' := by
  rw [String.data_append]
  rw [List.getD_append ("_te_transform_" : String).data r.data 'z' 4 (by decide)]
  decide

lemma attr_ne_transform_name (base : String) (i j : Nat) :
    attrAutoName base i ≠ transformAutoName base j := by
  unfold attrAutoName transformAutoName
  match i, j with
  | 0, 0 =>
      simp only [if_pos]
      exact cross_char_ne base "_te_attr" "_te_transform" (by decide) (by decide)
  | 0, j + 1 =>
      simp only [if_pos, Nat.succ_ne_zero, if_neg]
      rw [String.append_assoc]
      exact cross_char_ne base "_te_attr" ("_te_transform_" ++ Nat.repr (j + 1)) (by decide)
        (getD4_tf_sfx (Nat.repr (j + 1)))
  | i + 1, 0 =>
      simp only [if_pos, Nat.succ_ne_zero, if_neg]
      rw [String.append_assoc]
      exact cross_char_ne base ("_te_attr_" ++ Nat.repr (i + 1)) "_te_transform"
        (getD4_attr_sfx (Nat.repr (i + 1))) (by decide)
  | i + 1, j + 1 =>
      simp only [Nat.succ_ne_zero, if_neg]
      rw [String.append_assoc, String.append_assoc]
      exact cross_char_ne base ("_te_attr_" ++ Nat.repr (i + 1))
        ("_te_transform_" ++ Nat.repr (j + 1))
        (getD4_attr_sfx (Nat.repr (i + 1))) (getD4_tf_sfx (Nat.repr (j + 1)))

/-! ### Auxiliary lemmas: phase-level structure of the convolution lowering -/

lemma list_set0_getD1 {α : Type} [Inhabited α] (l : List α) (x : α) :
    (l.set 0 x).getD 1 default = l.getD 1 default := by
  cases l <;> rfl

lemma wrapOps_one_getD1_code (fac : Fac) (base : String) (op : Op) (i o : Nat) :
    ((wrapOps fac base [op] i o).1.getD 1 default).code = op.code := rfl

lemma wrapOps_one_getD1_dm (fac : Fac) (base : String) (op : Op) (i o : Nat) :
    ((wrapOps fac base [op] i o).1.getD 1 default).depthMultiplier = op.depthMultiplier := rfl

lemma wrapOps_one_getD1_inputs (fac : Fac) (base : String) (op : Op) (i o : Nat) :
    ((wrapOps fac base [op] i o).1.getD 1 default).inputs =
      op.inputs.set i ((wrapOps fac base [op] i o).1.headI.outputs.headI) := rfl

lemma convPadPhase_conv_code (fac : Fac) (base : String) (padding : List Nat)
    (pre conv : Op) : (convPadPhase fac base padding pre conv).conv.code = conv.code := by
  unfold convPadPhase
  split <;> rfl

lemma convPadPhase_conv_dm (fac : Fac) (base : String) (padding : List Nat)
    (pre conv : Op) :
    (convPadPhase fac base padding pre conv).conv.depthMultiplier = conv.depthMultiplier := by
  unfold convPadPhase
  split <;> rfl

lemma convPadPhase_conv_getD1 (fac : Fac) (base : String) (padding : List Nat)
    (pre conv : Op) :
    (convPadPhase fac base padding pre conv).conv.inputs.getD 1 default =
      conv.inputs.getD 1 default := by
  unfold convPadPhase
  split
  · exact list_set0_getD1 conv.inputs _
  · rfl

lemma convWeightPhase_conv_code (fac : Fac) (base : String) (conv : Op) :
    (convWeightPhase fac base conv).conv.code = conv.code := rfl

lemma convWeightPhase_conv_dm (fac : Fac) (base : String) (conv : Op) :
    (convWeightPhase fac base conv).conv.depthMultiplier = conv.depthMultiplier := rfl

lemma convBiasPhase_conv_code (fac : Fac) (base : String) (conv : Op) :
    (convBiasPhase fac base conv).conv.code = conv.code := by
  simp only [convBiasPhase]
  repeat' split
  all_goals rfl

lemma convBiasPhase_conv_dm (fac : Fac) (base : String) (conv : Op) :
    (convBiasPhase fac base conv).conv.depthMultiplier = conv.depthMultiplier := by
  simp only [convBiasPhase]
  repeat' split
  all_goals rfl

lemma convDimNorm_getD1_w4 (fac : Fac) (self : ConvSelf)
    (hw : self.weight.shape.length = 4) :
    (convDimNorm fac self).inputs.getD 1 default = self.weight := by
  unfold convDimNorm
  by_cases hi : self.input.shape.length = 3 <;> simp [hw, hi]

lemma convTransformCore_convOp_code (self : ConvSelf) :
    (convTransformCore self).convOp.code =
      (convSelectOp self (convDimNorm {} self)).code := by
  unfold convTransformCore
  simp only [convBiasPhase_conv_code, convWeightPhase_conv_code,
    convPadPhase_conv_code, wrapOps_one_getD1_code]

lemma convTransformCore_convOp_dm (self : ConvSelf) :
    (convTransformCore self).convOp.depthMultiplier =
      (convSelectOp self (convDimNorm {} self)).depthMultiplier := by
  unfold convTransformCore
  simp only [convBiasPhase_conv_dm, convWeightPhase_conv_dm,
    convPadPhase_conv_dm, wrapOps_one_getD1_dm]

lemma convTransform_ok (self : ConvSelf) (r : ConvResult)
    (hr : convTransform self = Except.ok r) : r = convTransformCore self := by
  unfold convTransform at hr
  by_cases hg : ¬(self.weight.shape.length = 3 ∨ self.input.shape.length = 3) ∧
      self.weight.shape.length ≠ 4
  · rw [if_pos hg] at hr
    exact absurd hr (by simp)
  · rw [if_neg hg] at hr
    by_cases hb : (convTransformCore self).raised = true
    · rw [if_pos hb] at hr
      exact absurd hr (by simp)
    · rw [if_neg hb] at hr
      injection hr with h
      exact h.symm

lemma convTransform_error_of_raised (self : ConvSelf)
    (hok : ¬(¬(self.weight.shape.length = 3 ∨ self.input.shape.length = 3) ∧
      self.weight.shape.length ≠ 4))
    (hraised : (convTransformCore self).raised = true) :
    convTransform self =
      Except.error "TypeError: torch.tensor received a string dtype" := by
  unfold convTransform
  rw [if_neg hok, if_pos hraised]

lemma setHeadInput_length (ops : List Op) (i : Nat) (t : Tensor) :
    (setHeadInput ops i t).length = ops.length := by
  cases ops <;> rfl

lemma setLastOutput_length (o : Nat) (t : Tensor) : ∀ ops : List Op,
    (setLastOutput ops o t).length = ops.length := by
  intro ops
  induction ops with
  | nil => rfl
  | cons a rest ih =>
      cases rest with
      | nil => rfl
      | cons b r2 => simp only [setLastOutput, List.length_cons, ih]

lemma setHeadInput_get (ops : List Op) (i : Nat) (t : Tensor) (k : Nat) :
    (setHeadInput ops i t)[k]? = (ops[k]?).map (fun op =>
      if k = 0 then { op with inputs := op.inputs.set i t } else op) := by
  cases ops with
  | nil => simp [setHeadInput]
  | cons a rest =>
      cases k with
      | zero => simp [setHeadInput]
      | succ k => simp [setHeadInput]

lemma setLastOutput_get (o : Nat) (t : Tensor) : ∀ (ops : List Op) (k : Nat),
    (setLastOutput ops o t)[k]? = (ops[k]?).map (fun op =>
      if k = ops.length - 1 then { op with outputs := op.outputs.set o t } else op) := by
  intro ops
  induction ops with
  | nil => intro k; simp [setLastOutput]
  | cons a rest ih =>
      intro k
      cases rest with
      | nil =>
          cases k with
          | zero => simp [setLastOutput]
          | succ k => simp [setLastOutput]
      | cons b r2 =>
          have he : setLastOutput (a :: b :: r2) o t = a :: setLastOutput (b :: r2) o t := rfl
          cases k with
          | zero =>
              rw [he]
              have hne : ¬((0 : Nat) = (a :: b :: r2).length - 1) := by simp
              simp [hne]
          | succ k =>
              rw [he]
              simp only [List.getElem?_cons_succ]
              rw [ih k]
              have hiff : (k = (b :: r2).length - 1) = (k + 1 = (a :: b :: r2).length - 1) :=
                propext (by simp only [List.length_cons]; omega)
              simp only [hiff]

lemma getLastD_cons_concat (pre post : Op) (mid : List Op) :
    (([pre] ++ mid ++ [post]) : List Op).getLastD default = post := by
  show (pre :: (mid ++ [post])).getLastD default = post
  rw [List.getLastD_cons]
  exact List.getLastD_concat _ _ _

lemma getLastD_cons_concat2 (pre post : Op) (mid : List Op) :
    (pre :: (mid ++ [post]) : List Op).getLastD default = post := by
  rw [List.getLastD_cons]
  exact List.getLastD_concat _ _ _


lemma postCheckList_isOk (g : GraphEnv) : ∀ ops : List Op,
    (postCheckList g ops).isOk = true ↔
      ∀ op ∈ ops, 0 < g.outdegOfTensor op.outputs.headI.name ∧
        g.firstSuccIsConst op.outputs.headI.name = false := by
  intro ops
  induction ops with
  | nil => simp [postCheckList, Except.isOk, Except.toBool]
  | cons op rest ih =>
      by_cases h1 : g.outdegOfTensor op.outputs.headI.name = 0
      · simp [postCheckList, h1, Except.isOk, Except.toBool]
      · by_cases h2 : g.firstSuccIsConst op.outputs.headI.name = true
        · simp [postCheckList, h1, h2, Except.isOk, Except.toBool]
        · simp only [postCheckList, if_neg h1, if_neg h2]
          rw [ih]
          have h1' : 0 < g.outdegOfTensor op.outputs.headI.name := Nat.pos_of_ne_zero h1
          have h2' : g.firstSuccIsConst op.outputs.headI.name = false :=
            Bool.eq_false_iff.mpr h2
          simp [h1', h2']

lemma list_cons_ne_self2 {α : Type} (x : α) (l : List α) : x :: l ≠ l := by
  intro h
  have h2 := congrArg List.length h
  simp at h2

lemma convSelectOp_inputs (self : ConvSelf) (n : ConvNorm) :
    (convSelectOp self n).inputs = n.inputs := by
  unfold convSelectOp
  split <;> rfl

lemma convSelectOp_outputs (self : ConvSelf) (n : ConvNorm) :
    (convSelectOp self n).outputs = n.outputs := by
  unfold convSelectOp
  split <;> rfl

lemma convPhases_headI_len (fac : Fac) (base : String) (padding : List Nat)
    (op : Op) (x : Tensor) (xs : List Tensor) (hx : op.inputs = x :: xs) :
    (convBiasPhase
        (convWeightPhase
          (convPadPhase (wrapOps fac base [op] 0 0).2 base padding
            ((wrapOps fac base [op] 0 0).1.headI)
            ((wrapOps fac base [op] 0 0).1.getD 1 default)).fac
          base
          (convPadPhase (wrapOps fac base [op] 0 0).2 base padding
            ((wrapOps fac base [op] 0 0).1.headI)
            ((wrapOps fac base [op] 0 0).1.getD 1 default)).conv).fac
        base
        (convWeightPhase
          (convPadPhase (wrapOps fac base [op] 0 0).2 base padding
            ((wrapOps fac base [op] 0 0).1.headI)
            ((wrapOps fac base [op] 0 0).1.getD 1 default)).fac
          base
          (convPadPhase (wrapOps fac base [op] 0 0).2 base padding
            ((wrapOps fac base [op] 0 0).1.headI)
            ((wrapOps fac base [op] 0 0).1.getD 1 default)).conv).conv).conv.inputs.headI.shape.length
      = 4 := by
  by_cases hp : 0 < padding.sum
  · simp only [wrapOps, setHeadInput, setLastOutput, hx, convPadPhase, if_pos hp,
      convWeightPhase, convBiasPhase]
    repeat' split
    all_goals
      simp [permuteShape, padShape, createTransformTensor, createAttrTensor, nchw2nhwcPerm]
  · simp only [wrapOps, setHeadInput, setLastOutput, hx, convPadPhase, if_neg hp,
      convWeightPhase, convBiasPhase]
    repeat' split
    all_goals
      simp [permuteShape, createTransformTensor, createAttrTensor, nchw2nhwcPerm]

lemma c10_conv_part (cself : ConvSelf) (cr : ConvResult)
    (hcw : cself.weight.shape.length = 3)
    (hcil : cself.input.shape.length = 3)
    (hcone : cself.outputs ≠ [])
    (hcol : cself.outputs.headI.shape.length = 3)
    (hcr : convTransform cself = Except.ok cr) :
    ConvMutationSpec cself cr := by
  have hg : cr = convTransformCore cself := convTransform_ok cself cr hcr
  subst hg
  obtain ⟨t0, ts, hco⟩ := List.exists_cons_of_ne_nil hcone
  rw [hco] at hcol
  simp only [List.headI_cons] at hcol
  have hstr : (convTransformCore cself).stride = 1 :: cself.stride := by
    unfold convTransformCore convDimNorm
    simp [hcw]
  have hpad : (convTransformCore cself).padding = 0 :: cself.padding := by
    unfold convTransformCore convDimNorm
    simp [hcw]
  have hdil : (convTransformCore cself).dilation = 1 :: cself.dilation := by
    unfold convTransformCore convDimNorm
    simp [hcw]
  have hopd : (convTransformCore cself).output_padding = 0 :: cself.output_padding := by
    unfold convTransformCore convDimNorm
    simp [hcw]
  have hdni : (convDimNorm {} cself).inputs.headI.shape = expandDims2 cself.input.shape := by
    unfold convDimNorm
    simp [hcw, createTransformTensor]
  have hdno : (convDimNorm {} cself).outputs.headI.shape =
      expandDims2 cself.outputs.headI.shape := by
    unfold convDimNorm
    simp [hcw, hco, createTransformTensor]
  have hne : (convSelectOp cself (convDimNorm {} cself)).inputs ≠ [] := by
    rw [convSelectOp_inputs]
    unfold convDimNorm
    simp [hcw]
  obtain ⟨x, xs, hx⟩ := List.exists_cons_of_ne_nil hne
  have hinH : (convTransformCore cself).inputs.headI.shape.length = 4 := by
    unfold convTransformCore
    simp only []
    exact convPhases_headI_len _ _ _ _ x xs hx
  have hinNe : (convTransformCore cself).inputs.headI ≠ cself.input := by
    intro he
    have hl := congrArg (fun t => t.shape.length) he
    simp only [] at hl
    rw [hinH, hcil] at hl
    exact absurd hl (by decide)
  have houtH : (convTransformCore cself).outputs.headI.shape.length = 4 := by
    unfold convTransformCore
    simp [hcw, hco, convSelectOp_inputs, convSelectOp_outputs, convDimNorm, wrapOps,
      setHeadInput, setLastOutput, createTransformTensor, createAttrTensor, permuteShape,
      nchw2nhwcPerm]
  have houtNe : (convTransformCore cself).outputs.headI ≠ cself.outputs.headI := by
    intro he
    have hl := congrArg (fun t => t.shape.length) he
    simp only [] at hl
    rw [houtH, hco] at hl
    simp only [List.headI_cons] at hl
    rw [hcol] at hl
    exact absurd hl (by decide)
  exact ⟨hstr, by rw [hstr]; exact list_cons_ne_self2 1 _,
    hpad, by rw [hpad]; exact list_cons_ne_self2 0 _,
    hdil, by rw [hdil]; exact list_cons_ne_self2 1 _,
    hopd, by rw [hopd]; exact list_cons_ne_self2 0 _,
    hdni, hdno, hinH, hinNe, houtH, houtNe⟩

lemma c10_deconv_part (dself : DeconvSelf) (dr : DeconvResult)
    (hdw : dself.weight.shape.length = 3)
    (hdil3 : dself.input.shape.length = 3)
    (hdone : dself.outputs ≠ [])
    (hdol : dself.outputs.headI.shape.length = 3)
    (hdr : deconvTransform dself = Except.ok dr) :
    DeconvMutationSpec dself dr := by
  have hg : dr = deconvTransformCore dself := by
    unfold deconvTransform at hdr
    simp only [hdw] at hdr
    simp at hdr
    exact hdr.symm
  subst hg
  obtain ⟨u0, us, hdo⟩ := List.exists_cons_of_ne_nil hdone
  rw [hdo] at hdol
  simp only [List.headI_cons] at hdol
  have hstr : (deconvTransformCore dself).stride = 1 :: dself.stride := by
    unfold deconvTransformCore deconvDimNorm
    simp [hdw]
  have hpad : (deconvTransformCore dself).padding = 0 :: dself.padding := by
    unfold deconvTransformCore deconvDimNorm
    simp [hdw]
  have hdil : (deconvTransformCore dself).dilation = 1 :: dself.dilation := by
    unfold deconvTransformCore deconvDimNorm
    simp [hdw]
  have hopd : (deconvTransformCore dself).output_padding = 0 :: dself.output_padding := by
    unfold deconvTransformCore deconvDimNorm
    simp [hdw]
  have hdni : (deconvDimNorm {} dself).inputs.headI.shape = expandDims2 dself.input.shape := by
    unfold deconvDimNorm
    simp [hdw, createTransformTensor]
  have hdno : (deconvDimNorm {} dself).outputs.headI.shape =
      expandDims2 dself.outputs.headI.shape := by
    unfold deconvDimNorm
    simp [hdw, hdo, createTransformTensor]
  have hinH : (deconvTransformCore dself).inputs.headI.shape.length = 4 := by
    unfold deconvTransformCore deconvDimNorm
    simp [hdw, createTransformTensor, expandDims2, hdil3]
  have hinNe : (deconvTransformCore dself).inputs.headI ≠ dself.input := by
    intro he
    have hl := congrArg (fun t => t.shape.length) he
    simp only [] at hl
    rw [hinH, hdil3] at hl
    exact absurd hl (by decide)
  have houtH : (deconvTransformCore dself).outputs.headI.shape.length = 4 := by
    by_cases hp : 0 < dself.padding.sum <;> rcases hb : dself.bias with _ | bb <;>
    · unfold deconvTransformCore deconvDimNorm deconvSlicePhase deconvWeightPhase
        deconvBiasPhase
      simp [hdw, hdo, hp, hb, wrapOps, setHeadInput, setLastOutput, createTransformTensor,
        createAttrTensor, permuteShape, padShape, nchw2nhwcPerm, List.sum_cons]
  have houtNe : (deconvTransformCore dself).outputs.headI ≠ dself.outputs.headI := by
    intro he
    have hl := congrArg (fun t => t.shape.length) he
    simp only [] at hl
    rw [houtH, hdo] at hl
    simp only [List.headI_cons] at hl
    rw [hdol] at hl
    exact absurd hl (by decide)
  exact ⟨hstr, by rw [hstr]; exact list_cons_ne_self2 1 _,
    hpad, by rw [hpad]; exact list_cons_ne_self2 0 _,
    hdil, by rw [hdil]; exact list_cons_ne_self2 1 _,
    hopd, by rw [hopd]; exact list_cons_ne_self2 0 _,
    hdni, hdno, hinH, hinNe, houtH, houtNe⟩

/-! ### Claim theorems -/

set_option maxHeartbeats 1000000 in
/-- Claim C2 (amended): a generic convolution lowering that completes emits
exactly `ConvOpCount self` operators: 4 (convolution, two layout transposes,
weight transpose) + 1 when padding is nonzero + 3 when the weight has rank 3
+ 2 when only the input has rank 3.  (The lowering can instead abort with
the `TypeError` of the length-1 bias broadcast branch, emitting nothing —
see C5 — so the count is stated under the ok-result hypothesis.) -/
theorem conv_emitted_op_count (self : ConvSelf) (r : ConvResult)
    (h1 : self.outputs ≠ [])
    (h2 : self.weight.shape.length = 3 ∨ self.weight.shape.length = 4)
    (hr : convTransform self = Except.ok r) :
    r.ops.length = ConvOpCount self := by
  have hg : r = convTransformCore self := convTransform_ok self r hr
  subst hg
  obtain ⟨o0, orest, ho⟩ := List.exists_cons_of_ne_nil h1
  unfold convTransformCore convDimNorm ConvOpCount
  rcases h2 with h3 | h4
  · by_cases hp : 0 < self.padding.sum
    · simp [h3, ho, hp, mapThread, List.zipWith3, List.sum_cons,
        convPadPhase, convBiasPhase, convWeightPhase]
    · simp [h3, ho, hp, mapThread, List.zipWith3, List.sum_cons,
        convPadPhase, convBiasPhase, convWeightPhase]
  · by_cases hi3 : self.input.shape.length = 3
    · by_cases hp : 0 < self.padding.sum
      · simp [h4, hi3, ho, hp, mapThread, List.zipWith3, List.sum_cons,
          convPadPhase, convBiasPhase, convWeightPhase]
      · simp [h4, hi3, ho, hp, mapThread, List.zipWith3, List.sum_cons,
          convPadPhase, convBiasPhase, convWeightPhase]
    · by_cases hp : 0 < self.padding.sum
      · simp [h4, hi3, ho, hp, mapThread, List.zipWith3, List.sum_cons,
          convPadPhase, convBiasPhase, convWeightPhase]
      · simp [h4, hi3, ho, hp, mapThread, List.zipWith3, List.sum_cons,
          convPadPhase, convBiasPhase, convWeightPhase]

/-- Claim C2 (witness): the rank-3 example completes and emits exactly
`ConvOpCount convExample1d = 7` operators. -/
theorem conv_emitted_op_count_witness :
    (convExample1d.outputs ≠ [] ∧
      (convExample1d.weight.shape.length = 3 ∨ convExample1d.weight.shape.length = 4) ∧
      convTransform convExample1d = Except.ok (convTransformCore convExample1d)) ∧
    (convTransformCore convExample1d).ops.length = ConvOpCount convExample1d :=
  ⟨⟨by decide, by decide, rfl⟩,
   conv_emitted_op_count convExample1d (convTransformCore convExample1d)
     (by decide) (by decide) rfl⟩

set_option maxHeartbeats 1000000 in
/-- Claim C6: for a rank-4 weight, the depthwise primitive (depth multiplier
1) is selected iff the weight's second axis is 1 and its first axis equals
the group count; otherwise the standard primitive is selected and the
non-fatal compatibility warning fires exactly when additionally the input
channel count differs from the weight's second axis, while lowering still
emits the subgraph. -/
theorem conv_primitive_selection (self : ConvSelf) (r : ConvResult)
    (hw : self.weight.shape.length = 4)
    (hr : convTransform self = Except.ok r) : ConvSelectSpec self r := by
  have hg : r = convTransformCore self := convTransform_ok self r hr
  subst hg
  have hc := convTransformCore_convOp_code self
  have hd := convTransformCore_convOp_dm self
  unfold convSelectOp at hc hd
  rw [convDimNorm_getD1_w4 {} self hw] at hc hd
  have hwarn : (convTransformCore self).warned =
      convWarned self (convDimNorm {} self) := rfl
  have hops : (convTransformCore self).ops ≠ [] := by
    unfold convTransformCore
    simp
  unfold ConvSelectSpec
  by_cases hdw : convSelectIsDW self.weight self.groups = true
  · rw [if_pos hdw] at hc hd
    have hdw' : self.weight.shape.getD 1 0 = 1 ∧
        self.weight.shape.getD 0 0 = self.groups := by
      unfold convSelectIsDW at hdw
      simp only [Bool.and_eq_true, beq_iff_eq] at hdw
      exact hdw
    have hcc : (convTransformCore self).convOp.code = OpCode.depthwiseConv2d := by
      rw [hc]
    have hdd : (convTransformCore self).convOp.depthMultiplier = 1 := by
      rw [hd]
    refine ⟨iff_of_true hcc hdw', fun hx => absurd hcc hx, fun _ => hdd, ?_, hops⟩
    have hwfalse : (convTransformCore self).warned = false := by
      rw [hwarn]
      unfold convWarned
      rw [convDimNorm_getD1_w4 {} self hw, hdw]
      rfl
    rw [hwfalse]
    constructor
    · intro hx
      exact absurd hx (by decide)
    · intro hx
      exact absurd hdw' hx.1
  · rw [if_neg hdw] at hc hd
    have hdw' : ¬(self.weight.shape.getD 1 0 = 1 ∧
        self.weight.shape.getD 0 0 = self.groups) := by
      unfold convSelectIsDW at hdw
      simp only [Bool.and_eq_true, beq_iff_eq] at hdw
      exact hdw
    have hcc : (convTransformCore self).convOp.code = OpCode.conv2d := by
      rw [hc]
    refine ⟨?_, fun _ => hcc, ?_, ?_, hops⟩
    · constructor
      · intro hx
        rw [hcc] at hx
        exact absurd hx (by decide)
      · intro hx
        exact absurd hx hdw'
    · intro hx
      rw [hcc] at hx
      exact absurd hx (by decide)
    · have hdwf : convSelectIsDW self.weight self.groups = false :=
        Bool.eq_false_iff.mpr hdw
      have hwval : (convTransformCore self).warned =
          (self.input.shape.getD 1 0 != self.weight.shape.getD 1 0) := by
        rw [hwarn]
        unfold convWarned
        rw [convDimNorm_getD1_w4 {} self hw, hdwf]
        rfl
      rw [hwval, bne_iff_ne]
      exact ⟨fun hne => ⟨hdw', hne⟩, fun hx => hx.2⟩

/-- Claim C6 (witness): the depthwise example selects the depthwise
primitive. -/
theorem conv_primitive_selection_witness :
    convExampleDW.weight.shape.length = 4 ∧
    ConvSelectSpec convExampleDW (convTransformCore convExampleDW) :=
  ⟨by decide,
   conv_primitive_selection convExampleDW (convTransformCore convExampleDW) (by decide) rfl⟩

/-- Claim C1: on a BatchNorm whose input carries quantization parameters the
code emits dequantize, multiply, add, quantize in that order, but the
multiply's first input is the original quantized input tensor `x`, not the
dequantize node's output tensor `out_te_transform` — the dequantize output is
consumed by no emitted operator, so the chain is not wired as the claim
states. -/
theorem bn_quantized_mul_input_is_original_input :
    (bnTransform bnQuantExample).map (fun ops => ops.map (fun op =>
        (op.code, op.inputs.map Tensor.name, op.outputs.map Tensor.name))) =
      Except.ok
        [(OpCode.dequantize, ["x"], ["out_te_transform"]),
         (OpCode.mul, ["x", "out_te_attr"], ["out_te_transform_1"]),
         (OpCode.add, ["out_te_transform_1", "out_te_attr_1"], ["out_te_transform_2"]),
         (OpCode.quantize, ["out_te_transform_2"], ["out"])] ∧
    "x" ≠ "out_te_transform" := by
  exact ⟨rfl, by decide⟩

/-- Claim C2 (counterexample): a rank-3 convolution lowering emits 7
operators, not the 6 = 1 + 2 + 1 + 0 + 2 the claim predicts (the rank-3
branch emits three reshapes: input, weight and output). -/
theorem conv1d_emits_seven_ops :
    (convTransform convExample1d).map (fun r => r.ops.length) = Except.ok 7 ∧
    (7 : Nat) ≠ 1 + 2 + 1 + 0 + 2 := by
  exact ⟨rfl, by decide⟩

/-- Claim C3 (counterexample): in the emitted chain of the spec's 2-D
example the operator at index 1 is the weight transpose and the pad is at
index 2, so the emitted order differs from the claimed
[transpose-in, pad, transpose-weight, convolution, transpose-out]. -/
theorem conv2d_example_order_counterexample :
    (convTransform convExample2d).map (fun r => r.ops.map Op.code) =
      Except.ok [OpCode.transpose, OpCode.transpose, OpCode.pad,
                 OpCode.conv2d, OpCode.transpose] ∧
    [OpCode.transpose, OpCode.transpose, OpCode.pad, OpCode.conv2d, OpCode.transpose] ≠
      [OpCode.transpose, OpCode.pad, OpCode.transpose, OpCode.conv2d, OpCode.transpose] := by
  exact ⟨rfl, by decide⟩

/-- Claim C3 (amended): the example emits exactly 5 nodes in the order
[transpose-in, transpose-weight, pad, convolution, transpose-out]; the final
output tensor is the declared `out` of shape (1,4,8,8) and the synthesized
bias is an all-zero vector of shape (4,). -/
theorem conv2d_example_lowering :
    (convTransform convExample2d).map (fun r => r.ops.map (fun op =>
        (op.code, op.inputs.map Tensor.name, op.outputs.map Tensor.name))) =
      Except.ok
        [(OpCode.transpose, ["x", "out_te_attr_1"], ["out_te_transform"]),
         (OpCode.transpose, ["w", "out_te_attr_3"], ["out_te_transform_3"]),
         (OpCode.pad, ["out_te_transform", "out_te_attr_2"], ["out_te_transform_2"]),
         (OpCode.conv2d, ["out_te_transform_2", "out_te_transform_3", "out_te_attr_4"],
           ["out_te_transform_1"]),
         (OpCode.transpose, ["out_te_transform_1", "out_te_attr"], ["out"])] ∧
    (convTransform convExample2d).map (fun r =>
        ((r.ops.getLastD default).outputs.headI.name,
         (r.ops.getLastD default).outputs.headI.shape)) =
      Except.ok ("out", [1, 4, 8, 8]) ∧
    (convTransform convExample2d).map (fun r =>
        ((r.convOp.inputs.getD 2 default).shape, (r.convOp.inputs.getD 2 default).data,
         (r.convOp.inputs.getD 2 default).dtype)) =
      Except.ok ([4], [0, 0, 0, 0], DType.float32) := by
  exact ⟨rfl, rfl, rfl⟩

/-- Claim C4 (counterexample): on the depthwise example the emitted weight
transpose carries permutation [1,2,3,0] and its output tensor has shape
(1,3,3,4) — one × spatial × spatial × output-channels — not the claimed
spatial × spatial × output-channels × one = (3,3,4,1). -/
theorem depthwise_weight_shape_counterexample :
    (convTransform convExampleDW).map (fun r =>
        (((r.ops.getD 1 default).inputs.getD 1 default).data,
         (r.ops.getD 1 default).outputs.headI.shape)) =
      Except.ok ([1, 2, 3, 0], [1, 3, 3, 4]) ∧
    ([1, 3, 3, 4] : List Nat) ≠ [3, 3, 4, 1] := by
  exact ⟨rfl, by decide⟩

/-- Claim C9 (counterexample): the first auto-generated attribute-tensor
name for an operator whose first output is named `out` is `out_te_attr`,
not `out_attr` as the claim's suffix scheme predicts. -/
theorem attr_name_suffix_counterexample :
    (createAttrTensor {} "out" none [4] DType.int32 [] none).1.name = "out_te_attr" ∧
    "out_te_attr" ≠ "out" ++ "_attr" := by
  exact ⟨rfl, by decide⟩

/-- Claim C9 (amended): auto-generated names are the owning operator's
first declared output name suffixed by `_te_attr`, `_te_attr_1`, … for
attribute tensors and `_te_transform`, `_te_transform_1`, … for transform
tensors (the per-kind counter incrementing on every unnamed call), and
generated names with distinct counters never collide, within a kind or
across the two kinds. -/
theorem factory_name_generation (base : String) : FactoryNameSpec base := by
  refine ⟨fun fac sh dt d q => ⟨rfl, rfl, rfl⟩,
          fun fac sh dt q => ⟨rfl, rfl, rfl⟩,
          fun i j h => attrAutoName_inj base h,
          fun i j h => transformAutoName_inj base h,
          fun i j => attr_ne_transform_name base i j⟩

/-- Claim C9 (witness): at base name `out`, the theorem separates the first
two attribute names and the attribute/transform families. -/
theorem factory_name_generation_witness :
    attrAutoName "out" 0 ≠ attrAutoName "out" 1 ∧
    attrAutoName "out" 2 ≠ transformAutoName "out" 2 :=
  ⟨(factory_name_generation "out").2.2.1 0 1 (by decide),
   (factory_name_generation "out").2.2.2.2 2 2⟩

set_option maxHeartbeats 1000000 in
/-- Claim C4 (amended): for a rank-4 weight (o,c,k1,k2) and rank-4 input,
the emitted weight transpose reads the original weight and applies
[1,2,3,0] yielding shape (1,k1,k2,o) when the depthwise primitive is
selected, and [0,2,3,1] yielding (o,k1,k2,c) otherwise. -/
theorem conv_weight_permutation (self : ConvSelf) (r : ConvResult) (o c k1 k2 : Nat)
    (hw : self.weight.shape = [o, c, k1, k2])
    (hi : self.input.shape.length = 4)
    (hr : convTransform self = Except.ok r) : ConvWeightPermSpec self r o c k1 k2 := by
  have hw4 : self.weight.shape.length = 4 := by rw [hw]; rfl
  have hg : r = convTransformCore self := convTransform_ok self r hr
  subst hg
  have hi3 : ¬ self.input.shape.length = 3 := by omega
  unfold ConvWeightPermSpec
  refine ⟨?_, ?_, ?_⟩
  · by_cases hdwb : convSelectIsDW self.weight self.groups = true <;>
      by_cases hp : 0 < self.padding.sum <;>
      · unfold convTransformCore convDimNorm convSelectOp convWeightPhase
        simp [hw4, hi3, hp, hdwb, convPadPhase, wrapOps, setHeadInput, setLastOutput,
          createAttrTensor, createTransformTensor]
  · intro hdw
    have hdwb : convSelectIsDW self.weight self.groups = true := by
      unfold convSelectIsDW
      rw [hw]
      simp [hdw.1, hdw.2]
    have hcode : (convTransformCore self).convOp.code = OpCode.depthwiseConv2d := by
      rw [convTransformCore_convOp_code]
      unfold convSelectOp
      rw [convDimNorm_getD1_w4 {} self hw4, if_pos hdwb]
    refine ⟨?_, ?_, hcode⟩ <;>
      · by_cases hp : 0 < self.padding.sum <;>
        · unfold convTransformCore convDimNorm convSelectOp convWeightPhase
          simp [hw, hw4, hi3, hp, hdwb, convPadPhase, wrapOps, setHeadInput, setLastOutput,
            createAttrTensor, createTransformTensor, permuteShape, hdw.1]
  · intro hdw
    have hdwb : convSelectIsDW self.weight self.groups = false := by
      unfold convSelectIsDW
      rw [hw]
      by_cases h1 : c = 1
      · subst h1
        have h2 : ¬ o = self.groups := fun hx => hdw ⟨rfl, hx⟩
        simp [h2]
      · simp [h1]
    have hcode : (convTransformCore self).convOp.code = OpCode.conv2d := by
      rw [convTransformCore_convOp_code]
      unfold convSelectOp
      rw [convDimNorm_getD1_w4 {} self hw4, if_neg (by simp [hdwb])]
    refine ⟨?_, ?_, hcode⟩ <;>
      · by_cases hp : 0 < self.padding.sum <;>
        · unfold convTransformCore convDimNorm convSelectOp convWeightPhase
          simp [hw, hw4, hi3, hp, hdwb, convPadPhase, wrapOps, setHeadInput, setLastOutput,
            createAttrTensor, createTransformTensor, permuteShape]


/-- Claim C4 (witness): the depthwise example's weight (4,1,3,3) is
transposed to (1,3,3,4). -/
theorem conv_weight_permutation_witness :
    (convExampleDW.weight.shape = [4, 1, 3, 3] ∧ convExampleDW.input.shape.length = 4) ∧
    ConvWeightPermSpec convExampleDW (convTransformCore convExampleDW) 4 1 3 3 :=
  ⟨⟨by decide, by decide⟩,
   conv_weight_permutation convExampleDW (convTransformCore convExampleDW) 4 1 3 3
     (by decide) (by decide) rfl⟩

set_option maxHeartbeats 4000000 in
/-- Claim C5 (code bug): the zeros synthesis for a missing bias and the
passthrough of a non-broadcast bias hold, but the claim's third scenario
fails: the length-1 broadcast branch of lines 267-273 calls `torch.tensor`
with a string dtype and raises `TypeError`, so a supplied length-1 bias with
an output-channel count other than 1 aborts the lowering with no operators
emitted — the replicated bias the claim describes is never attached. -/
theorem conv_bias_synthesis (self : ConvSelf) :
    (∀ r : ConvResult, convTransform self = Except.ok r →
      (∀ o c k1 k2, self.weight.shape = [o, c, k1, k2] → self.input.shape.length = 4 →
        ConvBiasSpec self r o) ∧
      (∀ o c k, self.weight.shape = [o, c, k] → ConvBiasSpec self r o)) ∧
    (∀ b o c k1 k2, self.weight.shape = [o, c, k1, k2] → self.input.shape.length = 4 →
      self.bias = some b → b.shape.getD 0 0 = 1 → o ≠ 1 →
      convTransform self =
        Except.error "TypeError: torch.tensor received a string dtype") ∧
    (∀ b o c k, self.weight.shape = [o, c, k] → self.bias = some b →
      b.shape.getD 0 0 = 1 → o ≠ 1 →
      convTransform self =
        Except.error "TypeError: torch.tensor received a string dtype") := by
  refine ⟨?_, ?_, ?_⟩
  · intro r hr
    have hg : r = convTransformCore self := convTransform_ok self r hr
    subst hg
    constructor
    · intro o c k1 k2 hw hi
      have hw4 : self.weight.shape.length = 4 := by rw [hw]; rfl
      have hi3 : ¬ self.input.shape.length = 3 := by omega
      unfold ConvBiasSpec
      refine ⟨?_, ?_⟩
      · intro hb
        by_cases hdwb : convSelectIsDW self.weight self.groups = true <;>
          by_cases hp : 0 < self.padding.sum <;>
          · unfold convTransformCore convDimNorm convSelectOp convWeightPhase convBiasPhase
            simp [hw, hw4, hi3, hp, hdwb, hb, convPadPhase, wrapOps, setHeadInput,
              setLastOutput, createAttrTensor, createTransformTensor, permuteShape]
      · intro b hb hnc
        by_cases hb1 : b.shape.getD 0 0 = 1
        · have ho1 : o = 1 := by
            by_contra hx
            exact hnc ⟨hb1, hx⟩
          rw [List.getD_eq_getElem?_getD] at hb1
          by_cases hdwb : convSelectIsDW self.weight self.groups = true <;>
            by_cases hp : 0 < self.padding.sum <;>
            · unfold convTransformCore convDimNorm convSelectOp convWeightPhase convBiasPhase
              simp [hw, hw4, hi3, hp, hdwb, hb, hb1, ho1, convPadPhase, wrapOps,
                setHeadInput, setLastOutput, createAttrTensor, createTransformTensor,
                permuteShape]
        · rw [List.getD_eq_getElem?_getD] at hb1
          by_cases hdwb : convSelectIsDW self.weight self.groups = true <;>
            by_cases hp : 0 < self.padding.sum <;>
            · unfold convTransformCore convDimNorm convSelectOp convWeightPhase convBiasPhase
              simp [hw, hw4, hi3, hp, hdwb, hb, hb1, convPadPhase, wrapOps,
                setHeadInput, setLastOutput, createAttrTensor, createTransformTensor,
                permuteShape]
    · intro o c k hw
      have hw3 : self.weight.shape.length = 3 := by rw [hw]; rfl
      unfold ConvBiasSpec
      refine ⟨?_, ?_⟩
      · intro hb
        by_cases hc1 : c = 1 <;> by_cases hog : o = self.groups <;>
          by_cases hp : 0 < self.padding.sum <;>
          · unfold convTransformCore convDimNorm convSelectOp convWeightPhase convBiasPhase
            simp [hw, hw3, hp, hc1, hog, hb, convSelectIsDW, convPadPhase, wrapOps,
              setHeadInput, setLastOutput, createAttrTensor, createTransformTensor,
              permuteShape, expandDims2, mapThread, List.zipWith3, List.sum_cons]
      · intro b hb hnc
        by_cases hb1 : b.shape.getD 0 0 = 1
        · have ho1 : o = 1 := by
            by_contra hx
            exact hnc ⟨hb1, hx⟩
          rw [List.getD_eq_getElem?_getD] at hb1
          by_cases hog : o = self.groups
          · have hg1 : self.groups = 1 := by
              rw [← hog]
              exact ho1
            by_cases hc1 : c = 1 <;> by_cases hp : 0 < self.padding.sum <;>
            · unfold convTransformCore convDimNorm convSelectOp convWeightPhase convBiasPhase
              simp [hw, hw3, hp, hc1, hog, hg1, hb, hb1, ho1, convSelectIsDW, convPadPhase,
                wrapOps, setHeadInput, setLastOutput, createAttrTensor,
                createTransformTensor, permuteShape, expandDims2, mapThread, List.zipWith3,
                List.sum_cons]
          · rw [ho1] at hog
            by_cases hc1 : c = 1 <;> by_cases hp : 0 < self.padding.sum <;>
            · unfold convTransformCore convDimNorm convSelectOp convWeightPhase convBiasPhase
              simp [hw, hw3, hp, hc1, hog, hb, hb1, ho1, convSelectIsDW, convPadPhase,
                wrapOps, setHeadInput, setLastOutput, createAttrTensor,
                createTransformTensor, permuteShape, expandDims2, mapThread, List.zipWith3,
                List.sum_cons]
        · rw [List.getD_eq_getElem?_getD] at hb1
          by_cases hc1 : c = 1 <;> by_cases hog : o = self.groups <;>
            by_cases hp : 0 < self.padding.sum <;>
            · unfold convTransformCore convDimNorm convSelectOp convWeightPhase convBiasPhase
              simp [hw, hw3, hp, hc1, hog, hb, hb1, convSelectIsDW, convPadPhase, wrapOps,
                setHeadInput, setLastOutput, createAttrTensor, createTransformTensor,
                permuteShape, expandDims2, mapThread, List.zipWith3, List.sum_cons]
  · intro b o c k1 k2 hw hi hb hb1 hkn
    have hw4 : self.weight.shape.length = 4 := by rw [hw]; rfl
    have hi3 : ¬ self.input.shape.length = 3 := by omega
    have hraised : (convTransformCore self).raised = true := by
      rw [List.getD_eq_getElem?_getD] at hb1
      by_cases hdwb : convSelectIsDW self.weight self.groups = true <;>
        by_cases hp : 0 < self.padding.sum <;>
        · unfold convTransformCore convDimNorm convSelectOp convWeightPhase convBiasPhase
          simp [hw, hw4, hi3, hp, hdwb, hb, hb1, hkn, Ne.symm hkn, convPadPhase, wrapOps,
            setHeadInput, setLastOutput, createAttrTensor, createTransformTensor,
            permuteShape]
    exact convTransform_error_of_raised self (by simp [hw4]) hraised
  · intro b o c k hw hb hb1 hkn
    have hw3 : self.weight.shape.length = 3 := by rw [hw]; rfl
    have hraised : (convTransformCore self).raised = true := by
      rw [List.getD_eq_getElem?_getD] at hb1
      by_cases hog : o = self.groups
      · have hkg : ¬ (1 = self.groups) := by
          rw [← hog]
          exact Ne.symm hkn
        by_cases hc1 : c = 1 <;> by_cases hp : 0 < self.padding.sum <;>
        · unfold convTransformCore convDimNorm convSelectOp convWeightPhase convBiasPhase
          simp [hw, hw3, hp, hc1, hog, hkg, hb, hb1, hkn, Ne.symm hkn, convSelectIsDW,
            convPadPhase, wrapOps, setHeadInput, setLastOutput, createAttrTensor,
            createTransformTensor, permuteShape, expandDims2, mapThread, List.zipWith3,
            List.sum_cons]
      · by_cases hc1 : c = 1 <;> by_cases hp : 0 < self.padding.sum <;>
        · unfold convTransformCore convDimNorm convSelectOp convWeightPhase convBiasPhase
          simp [hw, hw3, hp, hc1, hog, hb, hb1, hkn, Ne.symm hkn, convSelectIsDW,
            convPadPhase, wrapOps, setHeadInput, setLastOutput, createAttrTensor,
            createTransformTensor, permuteShape, expandDims2, mapThread, List.zipWith3,
            List.sum_cons]
    exact convTransform_error_of_raised self (by simp [hw3]) hraised


/-- Claim C5 (witness): the spec's 2-D example (no bias) receives a zero bias
of length 4, while the same geometry with a supplied length-1 bias aborts
with the broadcast branch's TypeError. -/
theorem conv_bias_synthesis_witness :
    ((convTransform convExample2d = Except.ok (convTransformCore convExample2d) ∧
       convExample2d.weight.shape = [4, 3, 3, 3] ∧ convExample2d.input.shape.length = 4) ∧
      ConvBiasSpec convExample2d (convTransformCore convExample2d) 4) ∧
    ((convExampleBias1.weight.shape = [4, 3, 3, 3] ∧
       convExampleBias1.input.shape.length = 4 ∧ convExampleBias1.bias = some biasOne ∧
       biasOne.shape.getD 0 0 = 1 ∧ (4 : Nat) ≠ 1) ∧
      convTransform convExampleBias1 =
        Except.error "TypeError: torch.tensor received a string dtype") :=
  ⟨⟨⟨rfl, by decide, by decide⟩,
    ((conv_bias_synthesis convExample2d).1 (convTransformCore convExample2d) rfl).1
      4 3 3 3 (by decide) (by decide)⟩,
   ⟨⟨by decide, by decide, rfl, by decide, by decide⟩,
    (conv_bias_synthesis convExampleBias1).2.1 biasOne 4 3 3 3
      (by decide) (by decide) rfl (by decide) (by decide)⟩⟩


/-- Claim C7: the layout transpose wrapper returns
[pre-transpose] ++ chain ++ [post-transpose], never mutates the original
boundary tensors (the pre-transpose reads the original input, the
post-transpose writes the original output), redirects only the designated
input of the first and designated output of the last chain operator, and
the two redirection targets are newly created transform tensors carrying
the permuted shape and original quantization. -/
theorem wrap_ops_structure (fac : Fac) (base : String) (ops : List Op) (i o : Nat)
    (h : ops ≠ []) : WrapSpec fac base ops i o := by
  obtain ⟨a, rest, rfl⟩ := List.exists_cons_of_ne_nil h
  unfold WrapSpec wrapOps
  simp only []
  have hres : ∀ (pre post : Op) (mid : List Op), ((([pre] ++ mid) ++ [post]).drop 1).dropLast = mid := by
    intro pre post mid
    simp
  refine ⟨?_, rfl, rfl, ?_, ?_, rfl, rfl, rfl, rfl, ?_, ?_, ?_, ?_, ?_, ?_⟩
  · simp [setLastOutput_length, setHeadInput_length]
  · rw [getLastD_cons_concat]
  · rw [getLastD_cons_concat]
    rfl
  · rw [getLastD_cons_concat]
    rfl
  · rw [getLastD_cons_concat]
    rfl
  · rw [getLastD_cons_concat]
    rfl
  · rw [getLastD_cons_concat]
    rfl
  · simp only [List.cons_append, List.nil_append, List.drop_succ_cons, List.drop_zero,
      List.dropLast_concat, getLastD_cons_concat, getLastD_cons_concat2]
    rfl
  · intro k
    simp only [List.cons_append, List.nil_append, List.drop_succ_cons, List.drop_zero,
      List.dropLast_concat, getLastD_cons_concat, getLastD_cons_concat2]
    rw [setLastOutput_get, setHeadInput_get, Option.map_map]
    rw [setHeadInput_length]
    rfl


/-- Claim C7 (witness): wrapping a singleton convolution chain. -/
theorem wrap_ops_structure_witness :
    ([wrapExampleOp] : List Op) ≠ [] ∧ WrapSpec {} "out" [wrapExampleOp] 0 0 :=
  ⟨by decide, wrap_ops_structure {} "out" [wrapExampleOp] 0 0 (by decide)⟩

/-- Claim C8: after a generic convolution lowering, every emitted operator
except the last must have its first output's graph node with out-degree at
least 1 and a non-constant first successor, else the checked transform fails
with an internal-consistency error; the transposed-convolution checked
transform performs no such post-condition check (its result is independent of
the graph environment). -/
theorem conv_postcheck_deconv_unchecked (g : GraphEnv) (cself : ConvSelf)
    (r : ConvResult) (dself : DeconvSelf)
    (hr : convTransform cself = Except.ok r) : PostCheckSpec g cself r dself := by
  constructor
  · have hgoal : convTransformChecked g cself =
        (match postCheckList g r.ops.dropLast with
         | Except.error e => Except.error e
         | Except.ok _ => Except.ok r) := by
      unfold convTransformChecked convPostCheck
      rw [hr]
    rw [hgoal]
    have hiff := postCheckList_isOk g r.ops.dropLast
    cases hpc : postCheckList g r.ops.dropLast with
    | error e =>
        rw [hpc] at hiff
        constructor
        · intro hx
          exact absurd hx (by simp [Except.isOk, Except.toBool])
        · intro hall
          exact absurd (hiff.mpr hall) (by simp [Except.isOk, Except.toBool])
    | ok u =>
        rw [hpc] at hiff
        constructor
        · intro _
          exact hiff.mp rfl
        · intro _
          rfl
  · intro g'
    rfl

/-- Claim C8 (witness): the 2-D convolution example in an all-passing graph. -/
theorem conv_postcheck_deconv_unchecked_witness :
    convTransform convExample2d = Except.ok (convTransformCore convExample2d) ∧
    PostCheckSpec graphEnvAllOk convExample2d (convTransformCore convExample2d)
      deconvExample :=
  ⟨rfl, conv_postcheck_deconv_unchecked graphEnvAllOk convExample2d
    (convTransformCore convExample2d) deconvExample rfl⟩

/-- Claim C10: when the weight tensor has rank 3, both lowerings mutate the
transformable node's own state: `stride`, `padding`, `dilation` and
`output_padding` each receive a leading unit/zero entry (so none equals its
constructed value), and `inputs`/`outputs` are rebased onto the rank-4
replacement tensors (the dimensionality-normalization heads carry the
`expand_dims(., 2)` shape, and the final head tensors are rank 4, distinct
from the constructed ones). -/
theorem rank3_transform_mutates_parameters (cself : ConvSelf) (cr : ConvResult)
    (dself : DeconvSelf) (dr : DeconvResult)
    (hcw : cself.weight.shape.length = 3)
    (hcil : cself.input.shape.length = 3)
    (hcone : cself.outputs ≠ [])
    (hcol : cself.outputs.headI.shape.length = 3)
    (hdw : dself.weight.shape.length = 3)
    (hdil3 : dself.input.shape.length = 3)
    (hdone : dself.outputs ≠ [])
    (hdol : dself.outputs.headI.shape.length = 3)
    (hcr : convTransform cself = Except.ok cr)
    (hdr : deconvTransform dself = Except.ok dr) :
    ConvMutationSpec cself cr ∧ DeconvMutationSpec dself dr :=
  ⟨c10_conv_part cself cr hcw hcil hcone hcol hcr,
   c10_deconv_part dself dr hdw hdil3 hdone hdol hdr⟩

/-- Claim C10 (witness): the 1-D convolution and transposed-convolution
examples. -/
theorem rank3_transform_mutates_parameters_witness :
    (convExample1d.weight.shape.length = 3 ∧ convExample1d.input.shape.length = 3 ∧
     convExample1d.outputs ≠ [] ∧ convExample1d.outputs.headI.shape.length = 3 ∧
     deconvExample1d.weight.shape.length = 3 ∧ deconvExample1d.input.shape.length = 3 ∧
     deconvExample1d.outputs ≠ [] ∧ deconvExample1d.outputs.headI.shape.length = 3 ∧
     convTransform convExample1d = Except.ok (convTransformCore convExample1d) ∧
     deconvTransform deconvExample1d = Except.ok (deconvTransformCore deconvExample1d)) ∧
    (ConvMutationSpec convExample1d (convTransformCore convExample1d) ∧
     DeconvMutationSpec deconvExample1d (deconvTransformCore deconvExample1d)) :=
  ⟨⟨by decide, by decide, by decide, by decide, by decide, by decide, by decide, by decide,
    rfl, rfl⟩,
   rank3_transform_mutates_parameters convExample1d (convTransformCore convExample1d)
     deconvExample1d (deconvTransformCore deconvExample1d)
     (by decide) (by decide) (by decide) (by decide) (by decide) (by decide) (by decide)
     (by decide) rfl rfl⟩

end TinyNN
